import Mathlib

/-!
Verification of the media session registry of the windriver repository.

The model is a shallow embedding of `PlayerRegistry`
(src/unnamed/part_013, `services/playerRegistry.ts`) together with the
parts of `IndividualAudioPlayer.tsx` that drive it (`loadFile` and the
initialization effect).  JavaScript `Map`s become partial functions,
`shaka.Player` and `HTMLAudioElement` objects live in heaps indexed by
numeric identities, and every externally visible engine call
(`create`, `destroy`, `load`, `attach`, `play`) is recorded in an event
trace.  The `await` suspension point inside `reattachPlayer` is made
explicit by splitting the method into a synchronous prefix
(`reattachStart`) and the continuation that runs when the load settles
(`reattachFinish`); interleavings of asynchronous sequences are then
ordinary sequences of steps.  Outcomes of awaited engine operations
(`load` resolving or rejecting, `play` resolving or rejecting) are
environment parameters.
-/

namespace Windriver

/-- A JavaScript `Map` (or an object heap), modelled as a partial function. -/
abbrev Store (κ α : Type) : Type := κ → Option α

/-- `Map.prototype.set`: insert or overwrite. -/
def Store.set [DecidableEq κ] (m : Store κ α) (k : κ) (v : α) : Store κ α :=
  fun k' => if k' = k then some v else m k'

/-- `Map.prototype.delete`: remove the entry, if any. -/
def Store.del [DecidableEq κ] (m : Store κ α) (k : κ) : Store κ α :=
  fun k' => if k' = k then none else m k'

/-- The empty map. -/
def Store.empty : Store κ α := fun _ => none

/-- The per-key playback state kept in `PlayerRegistry.playerStates`:
`{ isPlaying, currentTime, volume }`. -/
structure PlayerState where
  isPlaying : Bool
  currentTime : ℚ
  volume : ℚ
deriving DecidableEq

/-- An update with optional fields, as accepted by `updatePlayerState`. -/
structure PlayerStatePatch where
  isPlaying : Option Bool
  currentTime : Option ℚ
  volume : Option ℚ
deriving DecidableEq

/-- The object spread `{ ...currentState, ...state }`: fields present in the
patch overwrite the current ones. -/
def PlayerState.merge (cur : PlayerState) (p : PlayerStatePatch) : PlayerState :=
  { isPlaying := p.isPlaying.getD cur.isPlaying
    currentTime := p.currentTime.getD cur.currentTime
    volume := p.volume.getD cur.volume }

/-- The observable state of an `HTMLAudioElement`. -/
structure AudioElement where
  paused : Bool
  currentTime : ℚ
  volume : ℚ
deriving DecidableEq

/-- The observable state of a `shaka.Player` instance: which element it is
attached to, the asset reported by `getAssetUri()`, and whether
`destroy()` has been called on it. -/
structure EngineState where
  attachedTo : Option Nat
  assetUri : Option String
  destroyed : Bool
deriving DecidableEq

/-- Externally visible engine/element calls, recorded as a trace. -/
inductive Event where
  | create (eng : Nat)
  | destroy (eng : Nat)
  | load (eng : Nat) (uri : String)
  | attach (eng : Nat) (elem : Nat)
  | play (elem : Nat)
  | resumeFailureLogged (elem : Nat)
  | loadFailureLogged
deriving DecidableEq

/-- The JavaScript errors that the engine's awaited calls can reject with. -/
inductive JsError where
  | loadError
  | resumeError
deriving DecidableEq

/-- Global state: the four maps of the `PlayerRegistry` singleton, plus the
heaps of `shaka.Player` and `HTMLAudioElement` objects and the allocator
counter for engine identities. -/
structure RegState where
  engines : Store Nat EngineState
  elems : Store Nat AudioElement
  players : Store String Nat
  audioElements : Store String Nat
  playerStates : Store String PlayerState
  manifestUrls : Store String String
  nextEngineId : Nat

/-- The state at module load: all maps empty. -/
def initState : RegState :=
  { engines := Store.empty
    elems := Store.empty
    players := Store.empty
    audioElements := Store.empty
    playerStates := Store.empty
    manifestUrls := Store.empty
    nextEngineId := 0 }

/-- `player.attach(element)` on the engine heap. -/
def attachEngine (es : Store Nat EngineState) (eid elemId : Nat) :
    Store Nat EngineState :=
  match es eid with
  | some eng => Store.set es eid { eng with attachedTo := some elemId }
  | none => es

/-- Record a successfully loaded asset on the engine heap: after
`await player.load(uri)` resolves, `getAssetUri()` reports `uri`. -/
def setAssetUri (es : Store Nat EngineState) (eid : Nat) (uri : String) :
    Store Nat EngineState :=
  match es eid with
  | some eng => Store.set es eid { eng with assetUri := some uri }
  | none => es

/-- `getPlayer(fileName)`: `this.players.get(fileName) || null`. -/
def getPlayer (s : RegState) (k : String) : Option Nat :=
  s.players k

/-- `isPlayerRegistered(fileName)`: `this.players.has(fileName)`. -/
def isPlayerRegistered (s : RegState) (k : String) : Bool :=
  (s.players k).isSome

/-- `getPlayerState(fileName)`. -/
def getPlayerState (s : RegState) (k : String) : Option PlayerState :=
  s.playerStates k

/-- `getManifestUrl(fileName)`: `this.manifestUrls.get(fileName) || null`. -/
def getManifestUrl (s : RegState) (k : String) : Option String :=
  s.manifestUrls k

/-- `setManifestUrl(fileName, manifestUrl)`. -/
def setManifestUrl (s : RegState) (k : String) (uri : String) : RegState :=
  { s with manifestUrls := Store.set s.manifestUrls k uri }

/-- `registerPlayer(fileName, player, audioElement)`: stores the player and
element and snapshots the element's current state into `playerStates`.
The element lookup is guarded only for totality of the embedding; every
caller passes an element that exists. -/
def registerPlayer (s : RegState) (k : String) (eid elemId : Nat) : RegState :=
  match s.elems elemId with
  | some el =>
      { s with
        players := Store.set s.players k eid
        audioElements := Store.set s.audioElements k elemId
        playerStates := Store.set s.playerStates k
          { isPlaying := !el.paused
            currentTime := el.currentTime
            volume := el.volume } }
  | none => s

/-- `unregisterPlayer(fileName)`: if a player is registered, destroy it and
delete the `players`, `audioElements` and `playerStates` entries.  The
`manifestUrls` entry is not touched. -/
def unregisterPlayer (s : RegState) (k : String) : RegState × List Event :=
  match s.players k with
  | some eid =>
      ({ s with
          engines :=
            match s.engines eid with
            | some eng => Store.set s.engines eid { eng with destroyed := true }
            | none => s.engines
          players := Store.del s.players k
          audioElements := Store.del s.audioElements k
          playerStates := Store.del s.playerStates k },
       [Event.destroy eid])
  | none => (s, [])

/-- `updatePlayerState(fileName, state)`: merge the patch into the current
state, but only when a current state exists. -/
def updatePlayerState (s : RegState) (k : String) (p : PlayerStatePatch) :
    RegState :=
  match s.playerStates k with
  | some cur =>
      { s with playerStates := Store.set s.playerStates k (cur.merge p) }
  | none => s

/-- The state-restoration block shared by both branches of `reattachPlayer`:
`newAudioElement.currentTime = state.currentTime;
newAudioElement.volume = state.volume;` and, when `state.isPlaying`,
`await newAudioElement.play()` with its rejection caught and logged.
`playOk` is the environment's outcome for the awaited `play()`. -/
def restoreState (s : RegState) (elemId : Nat) (snap : Option PlayerState)
    (playOk : Bool) : RegState × List Event :=
  match snap with
  | none => (s, [])
  | some st =>
      match s.elems elemId with
      | none => (s, [])
      | some el =>
          let el1 := { el with currentTime := st.currentTime
                               volume := st.volume }
          if st.isPlaying then
            if playOk then
              ({ s with elems := Store.set s.elems elemId { el1 with paused := false } },
               [Event.play elemId])
            else
              ({ s with elems := Store.set s.elems elemId el1 },
               [Event.play elemId, Event.resumeFailureLogged elemId])
          else
            ({ s with elems := Store.set s.elems elemId el1 }, [])

/-- Continuation data for a `reattachPlayer` call suspended at
`await player.load(manifestUrl)`: the captured local variables. -/
structure Pending where
  key : String
  elem : Nat
  player : Nat
  snap : Option PlayerState
  url : String
deriving DecidableEq

/-- How the synchronous prefix of `reattachPlayer` ended. -/
inductive ReattachStartResult where
  | noPlayer
  | pendingLoad (p : Pending)
  | done
deriving DecidableEq

/-- The synchronous prefix of `reattachPlayer(fileName, newAudioElement)`,
up to (and including issuing) `await player.load(manifestUrl)`:
look the player up; if present, capture the stored state, attach the
engine to the new element, overwrite the `audioElements` entry, read the
stored manifest URL; if one is stored, issue the load and suspend,
otherwise restore state (with `playOk` the outcome of an attempted
`play()`) and finish synchronously. -/
def reattachStart (s : RegState) (k : String) (newElem : Nat) (playOk : Bool) :
    RegState × List Event × ReattachStartResult :=
  match s.players k with
  | none => (s, [], ReattachStartResult.noPlayer)
  | some eid =>
      match s.manifestUrls k with
      | some url =>
          ({ s with
              engines := attachEngine s.engines eid newElem
              audioElements := Store.set s.audioElements k newElem },
           [Event.attach eid newElem, Event.load eid url],
           ReattachStartResult.pendingLoad
             { key := k, elem := newElem, player := eid
               snap := s.playerStates k, url := url })
      | none =>
          ((restoreState
              { s with
                  engines := attachEngine s.engines eid newElem
                  audioElements := Store.set s.audioElements k newElem }
              newElem (s.playerStates k) playOk).1,
           Event.attach eid newElem ::
             (restoreState
               { s with
                   engines := attachEngine s.engines eid newElem
                   audioElements := Store.set s.audioElements k newElem }
               newElem (s.playerStates k) playOk).2,
           ReattachStartResult.done)

/-- The continuation of `reattachPlayer` after `await player.load(...)`
settles.  `loadOk` is the environment's outcome.  On success the engine
records the asset and the captured state is restored onto the captured
element; on rejection the `catch` block only logs.  The returned
`Except` value is the settlement of the promise `reattachPlayer`
returned to its caller: the `try`/`catch` blocks mean it never rejects. -/
def reattachFinish (s : RegState) (p : Pending) (loadOk playOk : Bool) :
    RegState × List Event × Except JsError Unit :=
  if loadOk then
    ((restoreState { s with engines := setAssetUri s.engines p.player p.url }
        p.elem p.snap playOk).1,
     (restoreState { s with engines := setAssetUri s.engines p.player p.url }
        p.elem p.snap playOk).2,
     Except.ok ())
  else
    (s, [Event.loadFailureLogged], Except.ok ())

/-- `reattachPlayer(fileName, newAudioElement)` run without interleaving:
the synchronous prefix followed immediately by the continuation. -/
def reattachPlayer (s : RegState) (k : String) (newElem : Nat)
    (loadOk playOk : Bool) : RegState × List Event × Except JsError Unit :=
  match reattachStart s k newElem playOk with
  | (s1, evs, ReattachStartResult.noPlayer) => (s1, evs, Except.ok ())
  | (s1, evs, ReattachStartResult.done) => (s1, evs, Except.ok ())
  | (s1, evs, ReattachStartResult.pendingLoad p) =>
      ((reattachFinish s1 p loadOk playOk).1,
       evs ++ (reattachFinish s1 p loadOk playOk).2.1,
       (reattachFinish s1 p loadOk playOk).2.2)

/-- `loadFile` from `IndividualAudioPlayer.tsx`, called with an initialized
player `eid` and the stream identifier `streamId`: read
`getAssetUri()`; if it already equals `streamId`, skip the load;
otherwise `await targetPlayer.load(streamId)` and, only on success,
`setManifestUrl(file.name, streamId)`.  Errors are caught and shown in
component state (not modelled beyond the log event). -/
def loadFile (s : RegState) (k : String) (eid : Nat) (streamId : String)
    (loadOk : Bool) : RegState × List Event :=
  match s.engines eid with
  | none => (s, [])
  | some eng =>
      if eng.assetUri = some streamId then (s, [])
      else if loadOk then
        ({ s with
            engines := Store.set s.engines eid { eng with assetUri := some streamId }
            manifestUrls := Store.set s.manifestUrls k streamId },
         [Event.load eid streamId])
      else
        (s, [Event.load eid streamId, Event.loadFailureLogged])

/-- The initialization effect of `IndividualAudioPlayer` — the repository's
`acquire`: return early if the audio element is not ready; if a player is
registered, reattach it to the current element and reuse it; otherwise
create a fresh `shaka.Player`, attach it, register it, and load the
file.  The returned value is the player the component will use. -/
def acquire (s : RegState) (k : String) (streamId : String) (elemId : Nat)
    (loadOk playOk : Bool) : RegState × List Event × Option Nat :=
  match s.elems elemId with
  | none => (s, [], none)
  | some _ =>
      match s.players k with
      | some eid =>
          ((reattachPlayer s k elemId loadOk playOk).1,
           (reattachPlayer s k elemId loadOk playOk).2.1, some eid)
      | none =>
          ((loadFile
              (registerPlayer
                { s with
                    engines := attachEngine
                      (Store.set s.engines s.nextEngineId
                        { attachedTo := none, assetUri := none, destroyed := false })
                      s.nextEngineId elemId
                    nextEngineId := s.nextEngineId + 1 }
                k s.nextEngineId elemId)
              k s.nextEngineId streamId loadOk).1,
           Event.create s.nextEngineId :: Event.attach s.nextEngineId elemId ::
             (loadFile
               (registerPlayer
                 { s with
                     engines := attachEngine
                       (Store.set s.engines s.nextEngineId
                         { attachedTo := none, assetUri := none, destroyed := false })
                       s.nextEngineId elemId
                     nextEngineId := s.nextEngineId + 1 }
                 k s.nextEngineId elemId)
               k s.nextEngineId streamId loadOk).2,
           some s.nextEngineId)

/-- One acquire call as issued by a component: target key, stream
identifier, audio element, and the environment outcomes of the awaited
engine calls. -/
structure Call where
  uri : String
  elemId : Nat
  loadOk : Bool
  playOk : Bool

/-- A sequence of acquire calls for the same key, executed back to back,
returning the final state, the concatenated trace, and each caller's
player. -/
def acquireSeq (s : RegState) (k : String) :
    List Call → RegState × List Event × List (Option Nat)
  | [] => (s, [], [])
  | c :: cs =>
      ((acquireSeq (acquire s k c.uri c.elemId c.loadOk c.playOk).1 k cs).1,
       (acquire s k c.uri c.elemId c.loadOk c.playOk).2.1 ++
         (acquireSeq (acquire s k c.uri c.elemId c.loadOk c.playOk).1 k cs).2.1,
       (acquire s k c.uri c.elemId c.loadOk c.playOk).2.2 ::
         (acquireSeq (acquire s k c.uri c.elemId c.loadOk c.playOk).1 k cs).2.2)

/-- The operations of the event loop that touch the registry or its
objects.  `unmountCleanup` is the component's unmount cleanup, which
deliberately does nothing; `newElement` is the DOM creating a fresh
audio element; `surfaceEvent` is the user or the engine mutating an
element's playback state. -/
inductive Op where
  | acquireOp (k uri : String) (elemId : Nat) (loadOk playOk : Bool)
  | release (k : String)
  | updateSnapshot (k : String) (p : PlayerStatePatch)
  | reattachStartOp (k : String) (elemId : Nat) (playOk : Bool)
  | reattachFinishOp (p : Pending) (loadOk playOk : Bool)
  | setManifest (k uri : String)
  | unmountCleanup (k : String)
  | newElement (elemId : Nat) (el : AudioElement)
  | surfaceEvent (elemId : Nat) (el : AudioElement)

/-- The step function of the event loop: each operation runs to its next
suspension point (or completion) and yields the new state and the
events it emitted. -/
def step (s : RegState) (o : Op) : RegState × List Event :=
  match o with
  | Op.acquireOp k uri e l p =>
      ((acquire s k uri e l p).1, (acquire s k uri e l p).2.1)
  | Op.release k => unregisterPlayer s k
  | Op.updateSnapshot k p => (updatePlayerState s k p, [])
  | Op.reattachStartOp k e pk =>
      ((reattachStart s k e pk).1, (reattachStart s k e pk).2.1)
  | Op.reattachFinishOp p l pk =>
      ((reattachFinish s p l pk).1, (reattachFinish s p l pk).2.1)
  | Op.setManifest k u => (setManifestUrl s k u, [])
  | Op.unmountCleanup _ => (s, [])
  | Op.newElement e el =>
      match s.elems e with
      | none => ({ s with elems := Store.set s.elems e el }, [])
      | some _ => (s, [])
  | Op.surfaceEvent e el =>
      match s.elems e with
      | some _ => ({ s with elems := Store.set s.elems e el }, [])
      | none => (s, [])

/-- States reachable from module load by event-loop steps. -/
inductive Reachable : RegState → Prop where
  | init : Reachable initState
  | next {s : RegState} (o : Op) : Reachable s → Reachable (step s o).1

/-- Count the `load` calls in a trace. -/
def countLoads (evs : List Event) : Nat :=
  (evs.filter fun e => match e with | Event.load _ _ => true | _ => false).length

/-- Count the engine creations in a trace. -/
def countCreates (evs : List Event) : Nat :=
  (evs.filter fun e => match e with | Event.create _ => true | _ => false).length

/-! ## Basic lemmas about the map and heap operations -/

theorem Store.get_set [DecidableEq κ] (m : Store κ α) (k k' : κ) (v : α) :
    Store.set m k v k' = if k' = k then some v else m k' := rfl

theorem Store.get_del [DecidableEq κ] (m : Store κ α) (k k' : κ) :
    Store.del m k k' = if k' = k then none else m k' := rfl

theorem attachEngine_isSome (es : Store Nat EngineState) (eid e i : Nat) :
    (attachEngine es eid e i).isSome = (es i).isSome := by
  unfold attachEngine
  cases h : es eid with
  | none => rfl
  | some eng =>
      by_cases hi : i = eid
      · subst hi
        simp [Store.get_set, h]
      · simp [Store.get_set, hi]

theorem attachEngine_destroyed (es : Store Nat EngineState) (eid e i : Nat) :
    (attachEngine es eid e i).map EngineState.destroyed
      = (es i).map EngineState.destroyed := by
  unfold attachEngine
  cases h : es eid with
  | none => rfl
  | some eng =>
      by_cases hi : i = eid
      · subst hi
        simp [Store.get_set, h]
      · simp [Store.get_set, hi]

theorem setAssetUri_isSome (es : Store Nat EngineState) (eid : Nat) (u : String)
    (i : Nat) : (setAssetUri es eid u i).isSome = (es i).isSome := by
  unfold setAssetUri
  cases h : es eid with
  | none => rfl
  | some eng =>
      by_cases hi : i = eid
      · subst hi
        simp [Store.get_set, h]
      · simp [Store.get_set, hi]

theorem setAssetUri_destroyed (es : Store Nat EngineState) (eid : Nat) (u : String)
    (i : Nat) : (setAssetUri es eid u i).map EngineState.destroyed
      = (es i).map EngineState.destroyed := by
  unfold setAssetUri
  cases h : es eid with
  | none => rfl
  | some eng =>
      by_cases hi : i = eid
      · subst hi
        simp [Store.get_set, h]
      · simp [Store.get_set, hi]

/-! ## Frame lemmas: which components each operation leaves unchanged -/

theorem restoreState_players (s : RegState) (e : Nat) (sn : Option PlayerState)
    (pk : Bool) : (restoreState s e sn pk).1.players = s.players := by
  unfold restoreState
  repeat' split
  all_goals rfl

theorem restoreState_engines (s : RegState) (e : Nat) (sn : Option PlayerState)
    (pk : Bool) : (restoreState s e sn pk).1.engines = s.engines := by
  unfold restoreState
  repeat' split
  all_goals rfl

theorem restoreState_playerStates (s : RegState) (e : Nat) (sn : Option PlayerState)
    (pk : Bool) : (restoreState s e sn pk).1.playerStates = s.playerStates := by
  unfold restoreState
  repeat' split
  all_goals rfl

theorem restoreState_audioElements (s : RegState) (e : Nat) (sn : Option PlayerState)
    (pk : Bool) : (restoreState s e sn pk).1.audioElements = s.audioElements := by
  unfold restoreState
  repeat' split
  all_goals rfl

theorem restoreState_manifestUrls (s : RegState) (e : Nat) (sn : Option PlayerState)
    (pk : Bool) : (restoreState s e sn pk).1.manifestUrls = s.manifestUrls := by
  unfold restoreState
  repeat' split
  all_goals rfl

theorem restoreState_nextEngineId (s : RegState) (e : Nat) (sn : Option PlayerState)
    (pk : Bool) : (restoreState s e sn pk).1.nextEngineId = s.nextEngineId := by
  unfold restoreState
  repeat' split
  all_goals rfl

theorem restoreState_elems_isSome (s : RegState) (e : Nat) (sn : Option PlayerState)
    (pk : Bool) (i : Nat) :
    ((restoreState s e sn pk).1.elems i).isSome = (s.elems i).isSome := by
  unfold restoreState
  cases sn with
  | none => rfl
  | some st =>
      cases h : s.elems e with
      | none => rfl
      | some el =>
          by_cases hi : i = e
          · subst hi
            repeat' split
            all_goals simp [Store.get_set, h]
          · repeat' split
            all_goals simp [Store.get_set, hi]

theorem loadFile_players (s : RegState) (k : String) (eid : Nat) (u : String)
    (l : Bool) : (loadFile s k eid u l).1.players = s.players := by
  unfold loadFile
  repeat' split
  all_goals rfl

theorem loadFile_playerStates (s : RegState) (k : String) (eid : Nat) (u : String)
    (l : Bool) : (loadFile s k eid u l).1.playerStates = s.playerStates := by
  unfold loadFile
  repeat' split
  all_goals rfl

theorem loadFile_audioElements (s : RegState) (k : String) (eid : Nat) (u : String)
    (l : Bool) : (loadFile s k eid u l).1.audioElements = s.audioElements := by
  unfold loadFile
  repeat' split
  all_goals rfl

theorem loadFile_elems (s : RegState) (k : String) (eid : Nat) (u : String)
    (l : Bool) : (loadFile s k eid u l).1.elems = s.elems := by
  unfold loadFile
  repeat' split
  all_goals rfl

theorem loadFile_nextEngineId (s : RegState) (k : String) (eid : Nat) (u : String)
    (l : Bool) : (loadFile s k eid u l).1.nextEngineId = s.nextEngineId := by
  unfold loadFile
  repeat' split
  all_goals rfl

theorem loadFile_engines_isSome (s : RegState) (k : String) (eid : Nat) (u : String)
    (l : Bool) (i : Nat) :
    ((loadFile s k eid u l).1.engines i).isSome = (s.engines i).isSome := by
  unfold loadFile
  cases h : s.engines eid with
  | none => rfl
  | some eng =>
      by_cases hi : i = eid
      · subst hi
        repeat' split
        all_goals simp [Store.get_set, h]
      · repeat' split
        all_goals simp [Store.get_set, hi]

theorem loadFile_engines_destroyed (s : RegState) (k : String) (eid : Nat)
    (u : String) (l : Bool) (i : Nat) :
    ((loadFile s k eid u l).1.engines i).map EngineState.destroyed
      = (s.engines i).map EngineState.destroyed := by
  unfold loadFile
  cases h : s.engines eid with
  | none => rfl
  | some eng =>
      by_cases hi : i = eid
      · subst hi
        repeat' split
        all_goals simp_all [Store.get_set]
      · repeat' split
        all_goals simp [Store.get_set, hi]

/-- On a rejected load, `loadFile` leaves the manifest-URL cache unchanged. -/
theorem loadFile_manifestUrls_failure (s : RegState) (k : String) (eid : Nat)
    (u : String) : (loadFile s k eid u false).1.manifestUrls = s.manifestUrls := by
  unfold loadFile
  repeat' split
  all_goals first | rfl | simp_all

theorem updatePlayerState_players (s : RegState) (k : String) (p : PlayerStatePatch) :
    (updatePlayerState s k p).players = s.players := by
  unfold updatePlayerState
  cases s.playerStates k <;> rfl

theorem updatePlayerState_engines (s : RegState) (k : String) (p : PlayerStatePatch) :
    (updatePlayerState s k p).engines = s.engines := by
  unfold updatePlayerState
  cases s.playerStates k <;> rfl

theorem updatePlayerState_elems (s : RegState) (k : String) (p : PlayerStatePatch) :
    (updatePlayerState s k p).elems = s.elems := by
  unfold updatePlayerState
  cases s.playerStates k <;> rfl

theorem updatePlayerState_audioElements (s : RegState) (k : String)
    (p : PlayerStatePatch) :
    (updatePlayerState s k p).audioElements = s.audioElements := by
  unfold updatePlayerState
  cases s.playerStates k <;> rfl

theorem updatePlayerState_manifestUrls (s : RegState) (k : String)
    (p : PlayerStatePatch) :
    (updatePlayerState s k p).manifestUrls = s.manifestUrls := by
  unfold updatePlayerState
  cases s.playerStates k <;> rfl

theorem updatePlayerState_nextEngineId (s : RegState) (k : String)
    (p : PlayerStatePatch) :
    (updatePlayerState s k p).nextEngineId = s.nextEngineId := by
  unfold updatePlayerState
  cases s.playerStates k <;> rfl

theorem updatePlayerState_playerStates_isSome (s : RegState) (k : String)
    (p : PlayerStatePatch) (k' : String) :
    ((updatePlayerState s k p).playerStates k').isSome
      = (s.playerStates k').isSome := by
  unfold updatePlayerState
  cases h : s.playerStates k with
  | none => rfl
  | some cur =>
      by_cases hk : k' = k
      · subst hk
        simp [Store.get_set, h]
      · simp [Store.get_set, hk]

/-- When a player and a manifest URL are stored for the key, the synchronous
prefix of `reattachPlayer` attaches the engine, overwrites the
`audioElements` entry, issues the load, and suspends with the current
snapshot captured. -/
theorem reattachStart_pending (s : RegState) (k : String) (e : Nat) (pk : Bool)
    (eid : Nat) (url : String) (hp : s.players k = some eid)
    (hm : s.manifestUrls k = some url) :
    reattachStart s k e pk =
      ({ s with
          engines := attachEngine s.engines eid e
          audioElements := Store.set s.audioElements k e },
       [Event.attach eid e, Event.load eid url],
       ReattachStartResult.pendingLoad
         { key := k, elem := e, player := eid
           snap := s.playerStates k, url := url }) := by
  unfold reattachStart
  rw [hp, hm]

theorem reattachStart_players (s : RegState) (k : String) (e : Nat) (pk : Bool) :
    (reattachStart s k e pk).1.players = s.players := by
  unfold reattachStart
  cases s.players k with
  | none => rfl
  | some eid =>
      cases s.manifestUrls k with
      | some url => rfl
      | none => exact restoreState_players _ _ _ _

theorem reattachStart_playerStates (s : RegState) (k : String) (e : Nat)
    (pk : Bool) : (reattachStart s k e pk).1.playerStates = s.playerStates := by
  unfold reattachStart
  cases s.players k with
  | none => rfl
  | some eid =>
      cases s.manifestUrls k with
      | some url => rfl
      | none => exact restoreState_playerStates _ _ _ _

theorem reattachStart_manifestUrls (s : RegState) (k : String) (e : Nat)
    (pk : Bool) : (reattachStart s k e pk).1.manifestUrls = s.manifestUrls := by
  unfold reattachStart
  cases s.players k with
  | none => rfl
  | some eid =>
      cases s.manifestUrls k with
      | some url => rfl
      | none => exact restoreState_manifestUrls _ _ _ _

theorem reattachStart_nextEngineId (s : RegState) (k : String) (e : Nat)
    (pk : Bool) : (reattachStart s k e pk).1.nextEngineId = s.nextEngineId := by
  unfold reattachStart
  cases s.players k with
  | none => rfl
  | some eid =>
      cases s.manifestUrls k with
      | some url => rfl
      | none => exact restoreState_nextEngineId _ _ _ _

theorem reattachStart_engines_isSome (s : RegState) (k : String) (e : Nat)
    (pk : Bool) (i : Nat) :
    ((reattachStart s k e pk).1.engines i).isSome = (s.engines i).isSome := by
  unfold reattachStart
  cases s.players k with
  | none => rfl
  | some eid =>
      cases s.manifestUrls k with
      | some url => exact attachEngine_isSome _ _ _ _
      | none =>
          rw [restoreState_engines]
          exact attachEngine_isSome _ _ _ _

theorem reattachStart_engines_destroyed (s : RegState) (k : String) (e : Nat)
    (pk : Bool) (i : Nat) :
    ((reattachStart s k e pk).1.engines i).map EngineState.destroyed
      = (s.engines i).map EngineState.destroyed := by
  unfold reattachStart
  cases s.players k with
  | none => rfl
  | some eid =>
      cases s.manifestUrls k with
      | some url => exact attachEngine_destroyed _ _ _ _
      | none =>
          rw [restoreState_engines]
          exact attachEngine_destroyed _ _ _ _

theorem reattachStart_elems_isSome (s : RegState) (k : String) (e : Nat)
    (pk : Bool) (i : Nat) :
    ((reattachStart s k e pk).1.elems i).isSome = (s.elems i).isSome := by
  unfold reattachStart
  cases s.players k with
  | none => rfl
  | some eid =>
      cases s.manifestUrls k with
      | some url => rfl
      | none => exact restoreState_elems_isSome _ _ _ _ _

theorem reattachStart_audioElements (s : RegState) (k : String) (e : Nat)
    (pk : Bool) :
    (reattachStart s k e pk).1.audioElements =
      match s.players k with
      | none => s.audioElements
      | some _ => Store.set s.audioElements k e := by
  unfold reattachStart
  cases s.players k with
  | none => rfl
  | some eid =>
      cases s.manifestUrls k with
      | some url => rfl
      | none => exact restoreState_audioElements _ _ _ _

theorem reattachFinish_players (s : RegState) (p : Pending) (l pk : Bool) :
    (reattachFinish s p l pk).1.players = s.players := by
  unfold reattachFinish
  split
  · exact restoreState_players _ _ _ _
  · rfl

theorem reattachFinish_playerStates (s : RegState) (p : Pending) (l pk : Bool) :
    (reattachFinish s p l pk).1.playerStates = s.playerStates := by
  unfold reattachFinish
  split
  · exact restoreState_playerStates _ _ _ _
  · rfl

theorem reattachFinish_audioElements (s : RegState) (p : Pending) (l pk : Bool) :
    (reattachFinish s p l pk).1.audioElements = s.audioElements := by
  unfold reattachFinish
  split
  · exact restoreState_audioElements _ _ _ _
  · rfl

theorem reattachFinish_manifestUrls (s : RegState) (p : Pending) (l pk : Bool) :
    (reattachFinish s p l pk).1.manifestUrls = s.manifestUrls := by
  unfold reattachFinish
  split
  · exact restoreState_manifestUrls _ _ _ _
  · rfl

theorem reattachFinish_nextEngineId (s : RegState) (p : Pending) (l pk : Bool) :
    (reattachFinish s p l pk).1.nextEngineId = s.nextEngineId := by
  unfold reattachFinish
  split
  · exact restoreState_nextEngineId _ _ _ _
  · rfl

theorem reattachFinish_engines_isSome (s : RegState) (p : Pending) (l pk : Bool)
    (i : Nat) :
    ((reattachFinish s p l pk).1.engines i).isSome = (s.engines i).isSome := by
  unfold reattachFinish
  split
  · rw [restoreState_engines]
    exact setAssetUri_isSome _ _ _ _
  · rfl

theorem reattachFinish_engines_destroyed (s : RegState) (p : Pending) (l pk : Bool)
    (i : Nat) :
    ((reattachFinish s p l pk).1.engines i).map EngineState.destroyed
      = (s.engines i).map EngineState.destroyed := by
  unfold reattachFinish
  split
  · rw [restoreState_engines]
    exact setAssetUri_destroyed _ _ _ _
  · rfl

theorem reattachFinish_elems_isSome (s : RegState) (p : Pending) (l pk : Bool)
    (i : Nat) :
    ((reattachFinish s p l pk).1.elems i).isSome = (s.elems i).isSome := by
  unfold reattachFinish
  split
  · exact restoreState_elems_isSome _ _ _ _ _
  · rfl

/-- The settled value of the promise returned by `reattachPlayer`: because
every awaited engine call inside it sits in a `try`/`catch`, the promise
always resolves (with `undefined`), whatever the load and play
outcomes. -/
theorem reattachFinish_result (s : RegState) (p : Pending) (l pk : Bool) :
    (reattachFinish s p l pk).2.2 = Except.ok () := by
  unfold reattachFinish
  split <;> rfl

theorem reattachPlayer_players (s : RegState) (k : String) (e : Nat)
    (l pk : Bool) : (reattachPlayer s k e l pk).1.players = s.players := by
  unfold reattachPlayer
  split
  all_goals rename_i s1 evs heq
  · have h := reattachStart_players s k e pk
    rw [heq] at h
    exact h
  · have h := reattachStart_players s k e pk
    rw [heq] at h
    exact h
  · rename_i p
    rw [reattachFinish_players]
    have h := reattachStart_players s k e pk
    rw [heq] at h
    exact h

theorem reattachPlayer_playerStates (s : RegState) (k : String) (e : Nat)
    (l pk : Bool) :
    (reattachPlayer s k e l pk).1.playerStates = s.playerStates := by
  unfold reattachPlayer
  split
  all_goals rename_i s1 evs heq
  · have h := reattachStart_playerStates s k e pk
    rw [heq] at h
    exact h
  · have h := reattachStart_playerStates s k e pk
    rw [heq] at h
    exact h
  · rename_i p
    rw [reattachFinish_playerStates]
    have h := reattachStart_playerStates s k e pk
    rw [heq] at h
    exact h

theorem reattachPlayer_manifestUrls (s : RegState) (k : String) (e : Nat)
    (l pk : Bool) :
    (reattachPlayer s k e l pk).1.manifestUrls = s.manifestUrls := by
  unfold reattachPlayer
  split
  all_goals rename_i s1 evs heq
  · have h := reattachStart_manifestUrls s k e pk
    rw [heq] at h
    exact h
  · have h := reattachStart_manifestUrls s k e pk
    rw [heq] at h
    exact h
  · rename_i p
    rw [reattachFinish_manifestUrls]
    have h := reattachStart_manifestUrls s k e pk
    rw [heq] at h
    exact h

theorem reattachPlayer_nextEngineId (s : RegState) (k : String) (e : Nat)
    (l pk : Bool) :
    (reattachPlayer s k e l pk).1.nextEngineId = s.nextEngineId := by
  unfold reattachPlayer
  split
  all_goals rename_i s1 evs heq
  · have h := reattachStart_nextEngineId s k e pk
    rw [heq] at h
    exact h
  · have h := reattachStart_nextEngineId s k e pk
    rw [heq] at h
    exact h
  · rename_i p
    rw [reattachFinish_nextEngineId]
    have h := reattachStart_nextEngineId s k e pk
    rw [heq] at h
    exact h

theorem reattachPlayer_engines_isSome (s : RegState) (k : String) (e : Nat)
    (l pk : Bool) (i : Nat) :
    ((reattachPlayer s k e l pk).1.engines i).isSome = (s.engines i).isSome := by
  unfold reattachPlayer
  split
  all_goals rename_i s1 evs heq
  · have h := reattachStart_engines_isSome s k e pk i
    rw [heq] at h
    exact h
  · have h := reattachStart_engines_isSome s k e pk i
    rw [heq] at h
    exact h
  · rename_i p
    rw [reattachFinish_engines_isSome]
    have h := reattachStart_engines_isSome s k e pk i
    rw [heq] at h
    exact h

theorem reattachPlayer_engines_destroyed (s : RegState) (k : String) (e : Nat)
    (l pk : Bool) (i : Nat) :
    ((reattachPlayer s k e l pk).1.engines i).map EngineState.destroyed
      = (s.engines i).map EngineState.destroyed := by
  unfold reattachPlayer
  split
  all_goals rename_i s1 evs heq
  · have h := reattachStart_engines_destroyed s k e pk i
    rw [heq] at h
    exact h
  · have h := reattachStart_engines_destroyed s k e pk i
    rw [heq] at h
    exact h
  · rename_i p
    rw [reattachFinish_engines_destroyed]
    have h := reattachStart_engines_destroyed s k e pk i
    rw [heq] at h
    exact h

theorem reattachPlayer_elems_isSome (s : RegState) (k : String) (e : Nat)
    (l pk : Bool) (i : Nat) :
    ((reattachPlayer s k e l pk).1.elems i).isSome = (s.elems i).isSome := by
  unfold reattachPlayer
  split
  all_goals rename_i s1 evs heq
  · have h := reattachStart_elems_isSome s k e pk i
    rw [heq] at h
    exact h
  · have h := reattachStart_elems_isSome s k e pk i
    rw [heq] at h
    exact h
  · rename_i p
    rw [reattachFinish_elems_isSome]
    have h := reattachStart_elems_isSome s k e pk i
    rw [heq] at h
    exact h

/-- The promise returned by `reattachPlayer` always resolves: no load or
resume failure escapes it. -/
theorem reattachPlayer_result (s : RegState) (k : String) (e : Nat)
    (l pk : Bool) : (reattachPlayer s k e l pk).2.2 = Except.ok () := by
  unfold reattachPlayer
  split
  · rfl
  · rfl
  · exact reattachFinish_result _ _ _ _

/-! ## Event inventories -/

theorem countLoads_append (a b : List Event) :
    countLoads (a ++ b) = countLoads a + countLoads b := by
  simp [countLoads, List.filter_append]

theorem countCreates_append (a b : List Event) :
    countCreates (a ++ b) = countCreates a + countCreates b := by
  simp [countCreates, List.filter_append]

theorem countCreates_restoreState (s : RegState) (e : Nat)
    (sn : Option PlayerState) (pk : Bool) :
    countCreates (restoreState s e sn pk).2 = 0 := by
  unfold restoreState
  repeat' split
  all_goals rfl

theorem countLoads_restoreState (s : RegState) (e : Nat)
    (sn : Option PlayerState) (pk : Bool) :
    countLoads (restoreState s e sn pk).2 = 0 := by
  unfold restoreState
  repeat' split
  all_goals rfl

theorem countCreates_loadFile (s : RegState) (k : String) (eid : Nat) (u : String)
    (l : Bool) : countCreates (loadFile s k eid u l).2 = 0 := by
  unfold loadFile
  repeat' split
  all_goals rfl

theorem countCreates_reattachFinish (s : RegState) (p : Pending) (l pk : Bool) :
    countCreates (reattachFinish s p l pk).2.1 = 0 := by
  unfold reattachFinish
  split
  · exact countCreates_restoreState _ _ _ _
  · rfl

theorem countCreates_reattachStart (s : RegState) (k : String) (e : Nat)
    (pk : Bool) : countCreates (reattachStart s k e pk).2.1 = 0 := by
  unfold reattachStart
  cases s.players k with
  | none => rfl
  | some eid =>
      cases s.manifestUrls k with
      | some url => rfl
      | none =>
          show countCreates (Event.attach eid e :: _) = 0
          simp only [countCreates, List.filter_cons]
          exact countCreates_restoreState _ _ _ _

theorem countCreates_reattachPlayer (s : RegState) (k : String) (e : Nat)
    (l pk : Bool) : countCreates (reattachPlayer s k e l pk).2.1 = 0 := by
  unfold reattachPlayer
  split
  all_goals rename_i s1 evs heq
  · have h := countCreates_reattachStart s k e pk
    rw [heq] at h
    exact h
  · have h := countCreates_reattachStart s k e pk
    rw [heq] at h
    exact h
  · rename_i p
    rw [countCreates_append]
    have h := countCreates_reattachStart s k e pk
    rw [heq] at h
    rw [h, countCreates_reattachFinish]

theorem destroy_not_restoreState (s : RegState) (e : Nat) (sn : Option PlayerState)
    (pk : Bool) (d : Nat) : Event.destroy d ∉ (restoreState s e sn pk).2 := by
  unfold restoreState
  repeat' split
  all_goals simp

theorem destroy_not_loadFile (s : RegState) (k : String) (eid : Nat) (u : String)
    (l : Bool) (d : Nat) : Event.destroy d ∉ (loadFile s k eid u l).2 := by
  unfold loadFile
  repeat' split
  all_goals simp

theorem destroy_not_reattachStart (s : RegState) (k : String) (e : Nat) (pk : Bool)
    (d : Nat) : Event.destroy d ∉ (reattachStart s k e pk).2.1 := by
  unfold reattachStart
  cases s.players k with
  | none => simp
  | some eid =>
      cases s.manifestUrls k with
      | some url => simp
      | none =>
          show Event.destroy d ∉ Event.attach eid e :: _
          simp only [List.mem_cons, not_or]
          exact ⟨fun h => Event.noConfusion h, destroy_not_restoreState _ _ _ _ _⟩

theorem destroy_not_reattachFinish (s : RegState) (p : Pending) (l pk : Bool)
    (d : Nat) : Event.destroy d ∉ (reattachFinish s p l pk).2.1 := by
  unfold reattachFinish
  split
  · exact destroy_not_restoreState _ _ _ _ _
  · simp

theorem destroy_not_reattachPlayer (s : RegState) (k : String) (e : Nat)
    (l pk : Bool) (d : Nat) : Event.destroy d ∉ (reattachPlayer s k e l pk).2.1 := by
  unfold reattachPlayer
  split
  all_goals rename_i s1 evs heq
  · have h := destroy_not_reattachStart s k e pk d
    rw [heq] at h
    exact h
  · have h := destroy_not_reattachStart s k e pk d
    rw [heq] at h
    exact h
  · rename_i p
    have h := destroy_not_reattachStart s k e pk d
    rw [heq] at h
    simp only [List.mem_append, not_or]
    exact ⟨h, destroy_not_reattachFinish _ _ _ _ _⟩

theorem destroy_not_acquire (s : RegState) (k u : String) (e : Nat) (l pk : Bool)
    (d : Nat) : Event.destroy d ∉ (acquire s k u e l pk).2.1 := by
  unfold acquire
  cases s.elems e with
  | none => simp
  | some el =>
      cases s.players k with
      | some eid => exact destroy_not_reattachPlayer _ _ _ _ _ _
      | none =>
          show Event.destroy d ∉ Event.create _ :: Event.attach _ _ :: _
          simp only [List.mem_cons, not_or]
          exact ⟨fun h => Event.noConfusion h, fun h => Event.noConfusion h,
            destroy_not_loadFile _ _ _ _ _ _⟩

/-! ## The registry invariant and its preservation -/

/-- The implicit consistency invariant of the three per-player maps: a key
has a snapshot entry and an audio-element entry exactly when a player is
registered for it. -/
def MapsConsistent (s : RegState) : Prop :=
  ∀ k, ((s.players k).isSome = (s.playerStates k).isSome) ∧
       ((s.players k).isSome = (s.audioElements k).isSome)

theorem isSome_of_map_destroyed {o : Option EngineState} {b : Bool}
    (h : o.map EngineState.destroyed = some b) : o.isSome := by
  cases o <;> simp_all

/-- The registry invariant: engine identities in the heap are below the
allocator counter; distinct keys own distinct engines; every registered
engine is alive (not destroyed); and the three per-player maps are
consistent. -/
structure Inv (s : RegState) : Prop where
  fresh : ∀ eid, (s.engines eid).isSome → eid < s.nextEngineId
  inj : ∀ k1 k2 eid, s.players k1 = some eid → s.players k2 = some eid → k1 = k2
  live : ∀ k eid, s.players k = some eid →
    (s.engines eid).map EngineState.destroyed = some false
  cons : MapsConsistent s

theorem inv_transfer {s s' : RegState} (hv : Inv s)
    (hp : s'.players = s.players)
    (hps : ∀ k, (s'.playerStates k).isSome = (s.playerStates k).isSome)
    (hae : ∀ k, (s'.audioElements k).isSome = (s.audioElements k).isSome)
    (hn : s'.nextEngineId = s.nextEngineId)
    (he1 : ∀ i, (s'.engines i).isSome = (s.engines i).isSome)
    (he2 : ∀ i, (s'.engines i).map EngineState.destroyed
              = (s.engines i).map EngineState.destroyed) : Inv s' := by
  constructor
  · intro eid h
    rw [he1] at h
    rw [hn]
    exact hv.fresh eid h
  · intro k1 k2 eid h1 h2
    rw [hp] at h1 h2
    exact hv.inj k1 k2 eid h1 h2
  · intro k eid h
    rw [hp] at h
    rw [he2]
    exact hv.live k eid h
  · intro k
    rw [hp, hps k, hae k]
    exact hv.cons k

theorem inv_initState : Inv initState := by
  constructor
  · intro eid h
    simp [initState, Store.empty] at h
  · intro k1 k2 eid h1 h2
    simp [initState, Store.empty] at h1
  · intro k eid h
    simp [initState, Store.empty] at h
  · intro k
    exact ⟨rfl, rfl⟩

theorem cons_transfer {s s' : RegState} (hc : MapsConsistent s)
    (hp : ∀ k, (s'.players k).isSome = (s.players k).isSome)
    (hps : ∀ k, (s'.playerStates k).isSome = (s.playerStates k).isSome)
    (hae : ∀ k, (s'.audioElements k).isSome = (s.audioElements k).isSome) :
    MapsConsistent s' := by
  intro k
  rw [hp k, hps k, hae k]
  exact hc k

theorem cons_updatePlayerState {s : RegState} (hc : MapsConsistent s)
    (k : String) (p : PlayerStatePatch) : MapsConsistent (updatePlayerState s k p) := by
  refine cons_transfer hc ?_ ?_ ?_
  · intro k'
    rw [updatePlayerState_players]
  · intro k'
    exact updatePlayerState_playerStates_isSome s k p k'
  · intro k'
    rw [updatePlayerState_audioElements]

theorem cons_setManifestUrl {s : RegState} (hc : MapsConsistent s)
    (k u : String) : MapsConsistent (setManifestUrl s k u) := by
  refine cons_transfer hc ?_ ?_ ?_ <;> intro k' <;> rfl

theorem cons_reattachStart {s : RegState} (hc : MapsConsistent s)
    (k : String) (e : Nat) (pk : Bool) :
    MapsConsistent (reattachStart s k e pk).1 := by
  refine cons_transfer hc ?_ ?_ ?_
  · intro k'
    rw [reattachStart_players]
  · intro k'
    rw [reattachStart_playerStates]
  · intro k'
    rw [reattachStart_audioElements]
    cases hpk : s.players k with
    | none => rfl
    | some eid =>
        by_cases hk : k' = k
        · subst hk
          have h2 := (hc k').2
          rw [hpk] at h2
          simp [Store.get_set]
          simpa using h2.symm
        · simp [Store.get_set, hk]

theorem cons_reattachFinish {s : RegState} (hc : MapsConsistent s)
    (p : Pending) (l pk : Bool) : MapsConsistent (reattachFinish s p l pk).1 := by
  refine cons_transfer hc ?_ ?_ ?_ <;> intro k'
  · rw [reattachFinish_players]
  · rw [reattachFinish_playerStates]
  · rw [reattachFinish_audioElements]

theorem cons_reattachPlayer {s : RegState} (hc : MapsConsistent s)
    (k : String) (e : Nat) (l pk : Bool) :
    MapsConsistent (reattachPlayer s k e l pk).1 := by
  unfold reattachPlayer
  split
  · rename_i s1 evs heq
    have h := cons_reattachStart hc k e pk
    rw [heq] at h
    exact h
  · rename_i s1 evs heq
    have h := cons_reattachStart hc k e pk
    rw [heq] at h
    exact h
  · rename_i s1 evs pnd heq
    have h := cons_reattachStart hc k e pk
    rw [heq] at h
    exact cons_reattachFinish h pnd l pk

theorem cons_loadFile {s : RegState} (hc : MapsConsistent s)
    (k : String) (eid : Nat) (u : String) (l : Bool) :
    MapsConsistent (loadFile s k eid u l).1 := by
  refine cons_transfer hc ?_ ?_ ?_ <;> intro k'
  · rw [loadFile_players]
  · rw [loadFile_playerStates]
  · rw [loadFile_audioElements]

theorem cons_unregisterPlayer {s : RegState} (hc : MapsConsistent s)
    (k : String) : MapsConsistent (unregisterPlayer s k).1 := by
  unfold unregisterPlayer
  cases hp : s.players k with
  | none => exact hc
  | some eid =>
      intro k'
      by_cases hk : k' = k
      · subst hk
        simp [Store.get_del]
      · simp only [Store.get_del, if_neg hk]
        exact hc k'

/-- `registerPlayer` with an existing audio element, written out. -/
theorem registerPlayer_eq (s : RegState) (k : String) (eid elemId : Nat)
    (el : AudioElement) (he : s.elems elemId = some el) :
    registerPlayer s k eid elemId =
      { s with
        players := Store.set s.players k eid
        audioElements := Store.set s.audioElements k elemId
        playerStates := Store.set s.playerStates k
          { isPlaying := !el.paused
            currentTime := el.currentTime
            volume := el.volume } } := by
  unfold registerPlayer
  rw [he]

theorem cons_registerPlayer {s : RegState} (hc : MapsConsistent s)
    (k : String) (eid elemId : Nat) : MapsConsistent (registerPlayer s k eid elemId) := by
  unfold registerPlayer
  cases he : s.elems elemId with
  | none => exact hc
  | some el =>
      intro k'
      by_cases hk : k' = k
      · subst hk
        simp [Store.get_set]
      · simp only [Store.get_set, if_neg hk]
        exact hc k'

theorem cons_acquire {s : RegState} (hc : MapsConsistent s)
    (k u : String) (e : Nat) (l pk : Bool) :
    MapsConsistent (acquire s k u e l pk).1 := by
  unfold acquire
  cases he : s.elems e with
  | none => exact hc
  | some el =>
      cases hp : s.players k with
      | some eid => exact cons_reattachPlayer hc k e l pk
      | none =>
          have h1 : MapsConsistent { s with
              engines := attachEngine
                (Store.set s.engines s.nextEngineId
                  { attachedTo := none, assetUri := none, destroyed := false })
                s.nextEngineId e
              nextEngineId := s.nextEngineId + 1 } :=
            cons_transfer hc (fun _ => rfl) (fun _ => rfl) (fun _ => rfl)
          exact cons_loadFile (cons_registerPlayer h1 k s.nextEngineId e) k
            s.nextEngineId u l

theorem cons_step {s : RegState} (hc : MapsConsistent s) (o : Op) :
    MapsConsistent (step s o).1 := by
  cases o with
  | acquireOp k uri e l p => exact cons_acquire hc k uri e l p
  | release k => exact cons_unregisterPlayer hc k
  | updateSnapshot k p => exact cons_updatePlayerState hc k p
  | reattachStartOp k e pk => exact cons_reattachStart hc k e pk
  | reattachFinishOp p l pk => exact cons_reattachFinish hc p l pk
  | setManifest k u => exact cons_setManifestUrl hc k u
  | unmountCleanup k => exact hc
  | newElement e el =>
      show MapsConsistent (match s.elems e with
        | none => ({ s with elems := Store.set s.elems e el }, ([] : List Event))
        | some _ => (s, [])).1
      cases s.elems e with
      | none => exact cons_transfer hc (fun _ => rfl) (fun _ => rfl) (fun _ => rfl)
      | some _ => exact hc
  | surfaceEvent e el =>
      show MapsConsistent (match s.elems e with
        | some _ => ({ s with elems := Store.set s.elems e el }, ([] : List Event))
        | none => (s, [])).1
      cases s.elems e with
      | some _ => exact cons_transfer hc (fun _ => rfl) (fun _ => rfl) (fun _ => rfl)
      | none => exact hc

theorem inv_updatePlayerState {s : RegState} (hv : Inv s) (k : String)
    (p : PlayerStatePatch) : Inv (updatePlayerState s k p) := by
  refine inv_transfer hv (updatePlayerState_players s k p) ?_ ?_ ?_ ?_ ?_
  · intro k'
    exact updatePlayerState_playerStates_isSome s k p k'
  · intro k'
    rw [updatePlayerState_audioElements]
  · rw [updatePlayerState_nextEngineId]
  · intro i
    rw [updatePlayerState_engines]
  · intro i
    rw [updatePlayerState_engines]

theorem inv_setManifestUrl {s : RegState} (hv : Inv s) (k u : String) :
    Inv (setManifestUrl s k u) :=
  inv_transfer hv rfl (fun _ => rfl) (fun _ => rfl) rfl (fun _ => rfl) (fun _ => rfl)

theorem inv_reattachStart {s : RegState} (hv : Inv s) (k : String) (e : Nat)
    (pk : Bool) : Inv (reattachStart s k e pk).1 := by
  refine inv_transfer hv (reattachStart_players s k e pk) ?_ ?_
    (reattachStart_nextEngineId s k e pk)
    (fun i => reattachStart_engines_isSome s k e pk i)
    (fun i => reattachStart_engines_destroyed s k e pk i)
  · intro k'
    rw [reattachStart_playerStates]
  · intro k'
    rw [reattachStart_audioElements]
    cases hpk : s.players k with
    | none => rfl
    | some eid =>
        by_cases hk : k' = k
        · subst hk
          have h2 := (hv.cons k').2
          rw [hpk] at h2
          simp [Store.get_set]
          simpa using h2.symm
        · simp [Store.get_set, hk]

theorem inv_reattachFinish {s : RegState} (hv : Inv s) (p : Pending)
    (l pk : Bool) : Inv (reattachFinish s p l pk).1 := by
  refine inv_transfer hv (reattachFinish_players s p l pk) ?_ ?_
    (reattachFinish_nextEngineId s p l pk)
    (fun i => reattachFinish_engines_isSome s p l pk i)
    (fun i => reattachFinish_engines_destroyed s p l pk i)
  · intro k'
    rw [reattachFinish_playerStates]
  · intro k'
    rw [reattachFinish_audioElements]

theorem inv_reattachPlayer {s : RegState} (hv : Inv s) (k : String) (e : Nat)
    (l pk : Bool) : Inv (reattachPlayer s k e l pk).1 := by
  unfold reattachPlayer
  split
  · rename_i s1 evs heq
    have h := inv_reattachStart hv k e pk
    rw [heq] at h
    exact h
  · rename_i s1 evs heq
    have h := inv_reattachStart hv k e pk
    rw [heq] at h
    exact h
  · rename_i s1 evs pnd heq
    have h := inv_reattachStart hv k e pk
    rw [heq] at h
    exact inv_reattachFinish h pnd l pk

theorem inv_loadFile {s : RegState} (hv : Inv s) (k : String) (eid : Nat)
    (u : String) (l : Bool) : Inv (loadFile s k eid u l).1 := by
  refine inv_transfer hv (loadFile_players s k eid u l) ?_ ?_
    (loadFile_nextEngineId s k eid u l)
    (fun i => loadFile_engines_isSome s k eid u l i)
    (fun i => loadFile_engines_destroyed s k eid u l i)
  · intro k'
    rw [loadFile_playerStates]
  · intro k'
    rw [loadFile_audioElements]

theorem inv_unregisterPlayer {s : RegState} (hv : Inv s) (k : String) :
    Inv (unregisterPlayer s k).1 := by
  refine ⟨?_, ?_, ?_, cons_unregisterPlayer hv.cons k⟩
  · unfold unregisterPlayer
    cases hp : s.players k with
    | none => exact hv.fresh
    | some eid =>
        dsimp only
        cases he : s.engines eid with
        | none => exact hv.fresh
        | some eng =>
            intro i hi
            by_cases hie : i = eid
            · subst hie
              exact hv.fresh i (by rw [he]; rfl)
            · refine hv.fresh i ?_
              simpa [Store.get_set, hie] using hi
  · unfold unregisterPlayer
    cases hp : s.players k with
    | none => exact hv.inj
    | some eid =>
        dsimp only
        intro k1 k2 e' h1 h2
        rw [Store.get_del] at h1 h2
        by_cases hk1 : k1 = k
        · rw [if_pos hk1] at h1
          exact absurd h1 (by simp)
        · rw [if_neg hk1] at h1
          by_cases hk2 : k2 = k
          · rw [if_pos hk2] at h2
            exact absurd h2 (by simp)
          · rw [if_neg hk2] at h2
            exact hv.inj k1 k2 e' h1 h2
  · unfold unregisterPlayer
    cases hp : s.players k with
    | none => exact hv.live
    | some eid =>
        dsimp only
        intro k' e' h'
        rw [Store.get_del] at h'
        by_cases hk : k' = k
        · rw [if_pos hk] at h'
          exact absurd h' (by simp)
        · rw [if_neg hk] at h'
          have hne : e' ≠ eid := by
            intro hee
            exact hk (hv.inj k' k e' h' (by rw [hee]; exact hp))
          cases he : s.engines eid with
          | none => exact hv.live k' e' h'
          | some eng =>
              dsimp only
              have hst : (Store.set s.engines eid
                  { eng with destroyed := true }) e' = s.engines e' := by
                simp [Store.get_set, hne]
              rw [hst]
              exact hv.live k' e' h'

theorem inv_acquire {s : RegState} (hv : Inv s) (k u : String) (e : Nat)
    (l pk : Bool) : Inv (acquire s k u e l pk).1 := by
  unfold acquire
  cases he : s.elems e with
  | none => exact hv
  | some el =>
      cases hp : s.players k with
      | some eid => exact inv_reattachPlayer hv k e l pk
      | none =>
          apply inv_loadFile
          have heng : attachEngine
              (Store.set s.engines s.nextEngineId
                { attachedTo := none, assetUri := none, destroyed := false })
              s.nextEngineId e
              = Store.set s.engines s.nextEngineId
                { attachedTo := some e, assetUri := none, destroyed := false } := by
            funext i
            unfold attachEngine
            simp only [Store.get_set, if_pos rfl]
            by_cases hi : i = s.nextEngineId <;> simp [Store.get_set, hi]
          have hr := registerPlayer_eq
            { s with
              engines := attachEngine
                (Store.set s.engines s.nextEngineId
                  { attachedTo := none, assetUri := none, destroyed := false })
                s.nextEngineId e
              nextEngineId := s.nextEngineId + 1 }
            k s.nextEngineId e el he
          rw [hr]
          have hcons0 : MapsConsistent { s with
              engines := attachEngine
                (Store.set s.engines s.nextEngineId
                  { attachedTo := none, assetUri := none, destroyed := false })
                s.nextEngineId e
              nextEngineId := s.nextEngineId + 1 } :=
            cons_transfer hv.cons (fun _ => rfl) (fun _ => rfl) (fun _ => rfl)
          have hcons := cons_registerPlayer hcons0 k s.nextEngineId e
          rw [hr] at hcons
          refine ⟨?_, ?_, ?_, hcons⟩
          · intro i hi
            show i < s.nextEngineId + 1
            have hi' : ((Store.set s.engines s.nextEngineId
                { attachedTo := some e, assetUri := none, destroyed := false }) i).isSome := by
              rw [← heng]
              exact hi
            by_cases hin : i = s.nextEngineId
            · rw [hin]
              exact Nat.lt_succ_self _
            · rw [Store.get_set, if_neg hin] at hi'
              exact Nat.lt_trans (hv.fresh i hi') (Nat.lt_succ_self _)
          · intro k1 k2 e' h1 h2
            dsimp only at h1 h2
            rw [Store.get_set] at h1 h2
            by_cases hk1 : k1 = k
            · by_cases hk2 : k2 = k
              · rw [hk1, hk2]
              · rw [if_pos hk1] at h1
                rw [if_neg hk2] at h2
                have he' : e' = s.nextEngineId := by
                  injection h1 with h1'
                  exact h1'.symm
                rw [he'] at h2
                have := hv.fresh s.nextEngineId
                  (isSome_of_map_destroyed (hv.live k2 s.nextEngineId h2))
                exact absurd this (Nat.lt_irrefl _)
            · by_cases hk2 : k2 = k
              · rw [if_pos hk2] at h2
                rw [if_neg hk1] at h1
                have he' : e' = s.nextEngineId := by
                  injection h2 with h2'
                  exact h2'.symm
                rw [he'] at h1
                have := hv.fresh s.nextEngineId
                  (isSome_of_map_destroyed (hv.live k1 s.nextEngineId h1))
                exact absurd this (Nat.lt_irrefl _)
              · rw [if_neg hk1] at h1
                rw [if_neg hk2] at h2
                exact hv.inj k1 k2 e' h1 h2
          · intro k' e' h'
            dsimp only at h'
            rw [Store.get_set] at h'
            show ((attachEngine (Store.set s.engines s.nextEngineId
                { attachedTo := none, assetUri := none, destroyed := false })
                s.nextEngineId e) e').map EngineState.destroyed = some false
            rw [heng]
            by_cases hk : k' = k
            · rw [if_pos hk] at h'
              have he' : e' = s.nextEngineId := by
                injection h' with h''
                exact h''.symm
              rw [he', Store.get_set, if_pos rfl]
              rfl
            · rw [if_neg hk] at h'
              have hlt : e' < s.nextEngineId :=
                hv.fresh e' (isSome_of_map_destroyed (hv.live k' e' h'))
              rw [Store.get_set, if_neg (Nat.ne_of_lt hlt)]
              exact hv.live k' e' h'

theorem inv_step {s : RegState} (hv : Inv s) (o : Op) : Inv (step s o).1 := by
  cases o with
  | acquireOp k uri e l p => exact inv_acquire hv k uri e l p
  | release k => exact inv_unregisterPlayer hv k
  | updateSnapshot k p => exact inv_updatePlayerState hv k p
  | reattachStartOp k e pk => exact inv_reattachStart hv k e pk
  | reattachFinishOp p l pk => exact inv_reattachFinish hv p l pk
  | setManifest k u => exact inv_setManifestUrl hv k u
  | unmountCleanup k => exact hv
  | newElement e el =>
      show Inv (match s.elems e with
        | none => ({ s with elems := Store.set s.elems e el }, ([] : List Event))
        | some _ => (s, [])).1
      cases s.elems e with
      | none =>
          exact inv_transfer hv rfl (fun _ => rfl) (fun _ => rfl) rfl
            (fun _ => rfl) (fun _ => rfl)
      | some _ => exact hv
  | surfaceEvent e el =>
      show Inv (match s.elems e with
        | some _ => ({ s with elems := Store.set s.elems e el }, ([] : List Event))
        | none => (s, [])).1
      cases s.elems e with
      | some _ =>
          exact inv_transfer hv rfl (fun _ => rfl) (fun _ => rfl) rfl
            (fun _ => rfl) (fun _ => rfl)
      | none => exact hv

/-- Every reachable state satisfies the registry invariant. -/
theorem reachable_inv {s : RegState} (h : Reachable s) : Inv s := by
  induction h with
  | init => exact inv_initState
  | next o _ ih => exact inv_step ih o

/-! ## Further helper lemmas for the claims -/

theorem countLoads_reattachFinish (s : RegState) (p : Pending) (l pk : Bool) :
    countLoads (reattachFinish s p l pk).2.1 = 0 := by
  unfold reattachFinish
  split
  · exact countLoads_restoreState _ _ _ _
  · rfl

/-- Whenever a player and a manifest URL are stored for the key, a
`reattachPlayer` call issues exactly one `load()` — it never consults the
engine's currently loaded asset. -/
theorem countLoads_reattachPlayer_stored (s : RegState) (k : String) (e : Nat)
    (l pk : Bool) (eid : Nat) (url : String)
    (hp : s.players k = some eid) (hm : s.manifestUrls k = some url) :
    countLoads (reattachPlayer s k e l pk).2.1 = 1 := by
  unfold reattachPlayer
  rw [reattachStart_pending s k e pk eid url hp hm]
  dsimp only
  rw [countLoads_append, countLoads_reattachFinish]
  rfl

/-- What a restore from a captured snapshot writes back to its element:
position and volume come from the snapshot, and the pause flag clears
exactly when the snapshot was playing and `play()` succeeded. -/
theorem restoreState_elems_self (s : RegState) (e : Nat) (st : PlayerState)
    (pk : Bool) :
    (restoreState s e (some st) pk).1.elems e
      = (s.elems e).map (fun el =>
          ⟨if st.isPlaying then (if pk then false else el.paused) else el.paused,
           st.currentTime, st.volume⟩) := by
  unfold restoreState
  cases h : s.elems e with
  | none =>
      dsimp only
      rw [h]
      rfl
  | some el =>
      cases hst : st.isPlaying <;> cases pk <;>
        simp [hst, Store.get_set]

/-- The events a restore from a captured snapshot emits. -/
theorem restoreState_events (s : RegState) (e : Nat) (st : PlayerState)
    (pk : Bool) :
    (restoreState s e (some st) pk).2
      = if (s.elems e).isSome then
          (if st.isPlaying then
            (if pk then [Event.play e]
             else [Event.play e, Event.resumeFailureLogged e])
           else [])
        else [] := by
  unfold restoreState
  cases h : s.elems e with
  | none => rfl
  | some el =>
      cases hst : st.isPlaying <;> cases pk <;> simp [hst]

/-- The element state after the continuation of a successful load runs. -/
theorem reattachFinish_elems_self (s : RegState) (p : Pending) (st : PlayerState)
    (pk : Bool) (hsnap : p.snap = some st) :
    (reattachFinish s p true pk).1.elems p.elem
      = (s.elems p.elem).map (fun el =>
          ⟨if st.isPlaying then (if pk then false else el.paused) else el.paused,
           st.currentTime, st.volume⟩) := by
  unfold reattachFinish
  rw [if_pos rfl, hsnap, restoreState_elems_self]

/-- The events the continuation of a successful load emits. -/
theorem reattachFinish_events (s : RegState) (p : Pending) (st : PlayerState)
    (pk : Bool) (hsnap : p.snap = some st) :
    (reattachFinish s p true pk).2.1
      = if (s.elems p.elem).isSome then
          (if st.isPlaying then
            (if pk then [Event.play p.elem]
             else [Event.play p.elem, Event.resumeFailureLogged p.elem])
           else [])
        else [] := by
  unfold reattachFinish
  rw [if_pos rfl, hsnap, restoreState_events]

theorem unregisterPlayer_players_self (s : RegState) (k : String) :
    (unregisterPlayer s k).1.players k = none := by
  unfold unregisterPlayer
  cases hp : s.players k with
  | none => exact hp
  | some eid =>
      dsimp only
      rw [Store.get_del, if_pos rfl]

theorem unregisterPlayer_elems (s : RegState) (k : String) :
    (unregisterPlayer s k).1.elems = s.elems := by
  unfold unregisterPlayer
  cases s.players k <;> rfl

theorem unregisterPlayer_nextEngineId (s : RegState) (k : String) :
    (unregisterPlayer s k).1.nextEngineId = s.nextEngineId := by
  unfold unregisterPlayer
  cases s.players k <;> rfl

theorem unregisterPlayer_manifestUrls (s : RegState) (k : String) :
    (unregisterPlayer s k).1.manifestUrls = s.manifestUrls := by
  unfold unregisterPlayer
  cases s.players k <;> rfl

/-- The result of an acquire on a registered key: no creation, the existing
player is handed back, and the `players` map is untouched. -/
theorem acquire_registered (s : RegState) (k u : String) (e eid : Nat)
    (l pk : Bool) (hel : (s.elems e).isSome) (hp : s.players k = some eid) :
    (acquire s k u e l pk).2.2 = some eid ∧
    countCreates (acquire s k u e l pk).2.1 = 0 ∧
    (acquire s k u e l pk).1.players = s.players := by
  unfold acquire
  cases hel2 : s.elems e with
  | none => rw [hel2] at hel; exact absurd hel (by simp)
  | some el =>
      dsimp only
      rw [hp]
      dsimp only
      exact ⟨rfl, countCreates_reattachPlayer s k e l pk,
        reattachPlayer_players s k e l pk⟩

theorem registerPlayer_players_self (s : RegState) (k : String) (eid elemId : Nat)
    (hel : (s.elems elemId).isSome) :
    (registerPlayer s k eid elemId).players k = some eid := by
  unfold registerPlayer
  cases he : s.elems elemId with
  | none => rw [he] at hel; exact absurd hel (by simp)
  | some el =>
      dsimp only
      rw [Store.get_set, if_pos rfl]

theorem registerPlayer_playerStates_self (s : RegState) (k : String)
    (eid elemId : Nat) (el : AudioElement) (hel : s.elems elemId = some el) :
    (registerPlayer s k eid elemId).playerStates k
      = some ⟨!el.paused, el.currentTime, el.volume⟩ := by
  unfold registerPlayer
  rw [hel]
  dsimp only
  rw [Store.get_set, if_pos rfl]

theorem registerPlayer_elems (s : RegState) (k : String) (eid elemId : Nat) :
    (registerPlayer s k eid elemId).elems = s.elems := by
  unfold registerPlayer
  cases s.elems elemId <;> rfl

theorem registerPlayer_manifestUrls (s : RegState) (k : String) (eid elemId : Nat) :
    (registerPlayer s k eid elemId).manifestUrls = s.manifestUrls := by
  unfold registerPlayer
  cases s.elems elemId <;> rfl

/-- The result of an acquire on an unregistered key: exactly one engine
creation, the fresh engine is handed back and registered, and the
snapshot is initialized from the bound element. -/
theorem acquire_new (s : RegState) (k u : String) (e : Nat) (l pk : Bool)
    (el : AudioElement) (hel : s.elems e = some el) (hp : s.players k = none) :
    (acquire s k u e l pk).2.2 = some s.nextEngineId ∧
    countCreates (acquire s k u e l pk).2.1 = 1 ∧
    (acquire s k u e l pk).1.players k = some s.nextEngineId ∧
    (acquire s k u e l pk).1.playerStates k
      = some ⟨!el.paused, el.currentTime, el.volume⟩ := by
  unfold acquire
  rw [hel]
  dsimp only
  rw [hp]
  dsimp only
  refine ⟨rfl, ?_, ?_, ?_⟩
  · show countCreates (Event.create _ :: Event.attach _ _ :: _) = 1
    have h0 := countCreates_loadFile
      (registerPlayer
        { s with
            engines := attachEngine
              (Store.set s.engines s.nextEngineId
                { attachedTo := none, assetUri := none, destroyed := false })
              s.nextEngineId e
            nextEngineId := s.nextEngineId + 1 }
        k s.nextEngineId e)
      k s.nextEngineId u l
    simp only [countCreates, List.filter_cons] at h0 ⊢
    simp [h0]
  · rw [loadFile_players]
    refine registerPlayer_players_self _ _ _ _ ?_
    show (s.elems e).isSome
    rw [hel]
    rfl
  · rw [loadFile_playerStates]
    exact registerPlayer_playerStates_self _ _ _ _ el hel

theorem acquire_elems_isSome (s : RegState) (k u : String) (e : Nat) (l pk : Bool)
    (i : Nat) : ((acquire s k u e l pk).1.elems i).isSome = (s.elems i).isSome := by
  unfold acquire
  cases hel : s.elems e with
  | none => rfl
  | some el =>
      dsimp only
      cases hp : s.players k with
      | some eid => exact reattachPlayer_elems_isSome s k e l pk i
      | none =>
          dsimp only
          rw [loadFile_elems, registerPlayer_elems]

/-- Running a whole sequence of acquires against an already-registered key:
no creations, every caller gets the registered player, and the key stays
bound to it. -/
theorem acquireSeq_registered (k : String) (eid : Nat) :
    ∀ (cs : List Call) (s : RegState), s.players k = some eid →
    (∀ c ∈ cs, (s.elems c.elemId).isSome) →
    (acquireSeq s k cs).2.2 = List.replicate cs.length (some eid) ∧
    countCreates (acquireSeq s k cs).2.1 = 0 ∧
    (acquireSeq s k cs).1.players k = some eid := by
  intro cs
  induction cs with
  | nil => exact fun s hp _ => ⟨rfl, rfl, hp⟩
  | cons c cs ih =>
      intro s hp hel
      obtain ⟨h1, h2, h3⟩ := acquire_registered s k c.uri c.elemId eid c.loadOk
        c.playOk (hel c (List.mem_cons_self c cs)) hp
      have hp1 : (acquire s k c.uri c.elemId c.loadOk c.playOk).1.players k
          = some eid := by
        rw [h3]
        exact hp
      have hel1 : ∀ c' ∈ cs,
          (((acquire s k c.uri c.elemId c.loadOk c.playOk).1).elems c'.elemId).isSome := by
        intro c' hc'
        rw [acquire_elems_isSome]
        exact hel c' (List.mem_cons_of_mem c hc')
      obtain ⟨g1, g2, g3⟩ := ih _ hp1 hel1
      refine ⟨?_, ?_, g3⟩
      · show (acquire s k c.uri c.elemId c.loadOk c.playOk).2.2 :: _
          = List.replicate (cs.length + 1) (some eid)
        rw [h1, g1, List.replicate_succ]
      · show countCreates ((acquire s k c.uri c.elemId c.loadOk c.playOk).2.1 ++
            (acquireSeq (acquire s k c.uri c.elemId c.loadOk c.playOk).1 k cs).2.1) = 0
        rw [countCreates_append, h2, g2]

/-! ## Concrete states used as witnesses and counterexamples -/

/-- The audio element originally bound to the session (mid-playback). -/
def elemA : AudioElement := { paused := false, currentTime := 7, volume := 1 }

/-- A freshly mounted audio element. -/
def elemB : AudioElement := { paused := true, currentTime := 0, volume := 1 }

/-- Another freshly mounted audio element. -/
def elemC : AudioElement := { paused := true, currentTime := 0, volume := 1 }

/-- An engine already loaded with `"u1"` and attached to element `0`. -/
def engW : EngineState :=
  { attachedTo := some 0, assetUri := some "u1", destroyed := false }

/-- A snapshot recorded during playback. -/
def snapW : PlayerState := { isPlaying := true, currentTime := 10, volume := 1 }

/-- A registry with one live session `"a"`: engine `0` loaded with `"u1"`,
bound to element `0`, manifest URL `"u1"` stored, snapshot `snapW`;
elements `1` and `2` are fresh surfaces. -/
def sReg : RegState :=
  { engines := Store.set Store.empty 0 engW
    elems := Store.set (Store.set (Store.set Store.empty 0 elemA) 1 elemB) 2 elemC
    players := Store.set Store.empty "a" 0
    audioElements := Store.set Store.empty "a" 0
    playerStates := Store.set Store.empty "a" snapW
    manifestUrls := Store.set Store.empty "a" "u1"
    nextEngineId := 1 }

/-- The initial state with one audio element mounted and nothing registered. -/
def sElems : RegState := { initState with elems := Store.set initState.elems 0 elemB }

/-! ## The claims -/

/-- C1 counterexample: in `sReg` the engine is already loaded with `"u1"`
and the stored manifest URL is that same `"u1"`, yet a reattach issues
one more `load()` call instead of zero — `reattachPlayer` never consults
the engine's currently loaded resource. -/
theorem claim_C1_counterexample :
    sReg.engines 0 = some engW ∧ engW.assetUri = some "u1" ∧
    sReg.players "a" = some 0 ∧ sReg.manifestUrls "a" = some "u1" ∧
    countLoads (reattachPlayer sReg "a" 1 true true).2.1 = 1 ∧ (1 : Nat) ≠ 0 :=
  ⟨rfl, rfl, rfl, rfl, by decide, by decide⟩

/-- C1 (amended): whenever a player and a manifest URL are stored for a key,
every `reattachPlayer` call issues exactly one additional `load()` call,
even when the engine is already loaded with that same URL; the
skip-if-already-loaded optimization exists only in the component's
`loadFile` (run at player creation), which compares `getAssetUri()` with
the desired stream and issues no load when they agree. -/
theorem claim_C1_reattach_always_reloads (s : RegState) (k : String) (e eid : Nat)
    (l pk : Bool) (url : String)
    (hp : s.players k = some eid) (hm : s.manifestUrls k = some url) :
    countLoads (reattachPlayer s k e l pk).2.1 = 1 ∧
    (∀ eng u', s.engines eid = some eng → eng.assetUri = some u' →
      countLoads (loadFile s k eid u' l).2 = 0) := by
  constructor
  · exact countLoads_reattachPlayer_stored s k e l pk eid url hp hm
  · intro eng u' heng hasset
    unfold loadFile
    rw [heng]
    dsimp only
    rw [if_pos hasset]
    rfl

/-- C1 witness: the amended statement evaluated on `sReg`. -/
theorem claim_C1_witness :
    sReg.players "a" = some 0 ∧ sReg.manifestUrls "a" = some "u1" ∧
    countLoads (reattachPlayer sReg "a" 2 false true).2.1 = 1 ∧
    countLoads (loadFile sReg "a" 0 "u1" false).2 = 0 := by
  have h := claim_C1_reattach_always_reloads sReg "a" 2 0 false true "u1" rfl rfl
  exact ⟨rfl, rfl, h.1, h.2 engW "u1" rfl rfl⟩

/-- C6: in every event-loop step, an engine-destroy call is emitted only by
an explicit `release` (`unregisterPlayer`) for a key currently bound to
that engine; no other operation — in particular component unmount
(`unmountCleanup`) and reattachment — ever destroys an engine. -/
theorem claim_C6_destroy_only_on_release (s : RegState) (o : Op) (eid : Nat)
    (h : Event.destroy eid ∈ (step s o).2) :
    ∃ k, o = Op.release k ∧ s.players k = some eid := by
  cases o with
  | acquireOp k uri e l p => exact absurd h (destroy_not_acquire s k uri e l p eid)
  | release k =>
      refine ⟨k, rfl, ?_⟩
      have h' : Event.destroy eid ∈ (unregisterPlayer s k).2 := h
      unfold unregisterPlayer at h'
      cases hp : s.players k with
      | none =>
          rw [hp] at h'
          exact absurd h' (List.not_mem_nil _)
      | some eid' =>
          rw [hp] at h'
          dsimp only at h'
          have hEq : eid = eid' := by
            simp at h'
            omega
          rw [hEq]
  | updateSnapshot k p => exact absurd h (List.not_mem_nil _)
  | reattachStartOp k e pk => exact absurd h (destroy_not_reattachStart s k e pk eid)
  | reattachFinishOp p l pk => exact absurd h (destroy_not_reattachFinish s p l pk eid)
  | setManifest k u => exact absurd h (List.not_mem_nil _)
  | unmountCleanup k => exact absurd h (List.not_mem_nil _)
  | newElement e el =>
      have h' : Event.destroy eid ∈ (match s.elems e with
        | none => ({ s with elems := Store.set s.elems e el }, ([] : List Event))
        | some _ => (s, ([] : List Event))).2 := h
      cases he : s.elems e with
      | none =>
          rw [he] at h'
          exact absurd h' (List.not_mem_nil _)
      | some el' =>
          rw [he] at h'
          exact absurd h' (List.not_mem_nil _)
  | surfaceEvent e el =>
      have h' : Event.destroy eid ∈ (match s.elems e with
        | some _ => ({ s with elems := Store.set s.elems e el }, ([] : List Event))
        | none => (s, ([] : List Event))).2 := h
      cases he : s.elems e with
      | none =>
          rw [he] at h'
          exact absurd h' (List.not_mem_nil _)
      | some el' =>
          rw [he] at h'
          exact absurd h' (List.not_mem_nil _)

/-- C6 witness: evaluated on `sReg` and the release of `"a"`. -/
theorem claim_C6_witness :
    Event.destroy 0 ∈ (step sReg (Op.release "a")).2 ∧
    ∃ k, Op.release "a" = Op.release k ∧ sReg.players k = some 0 :=
  ⟨by decide, claim_C6_destroy_only_on_release sReg (Op.release "a") 0 (by decide)⟩

/-- C8: when the awaited load inside a reattach rejects, the manifest-URL
cache is untouched, the session stays registered, the failure is only
logged, and a retried reattach issues its load again; in `loadFile` the
cache entry is written only after a successful load. -/
theorem claim_C8_load_failure_atomicity (s : RegState) (k : String) (e eid : Nat)
    (u : String) (pk : Bool)
    (hp : s.players k = some eid) (hm : s.manifestUrls k = some u) :
    (reattachPlayer s k e false pk).1.manifestUrls = s.manifestUrls ∧
    (reattachPlayer s k e false pk).1.players k = some eid ∧
    Event.loadFailureLogged ∈ (reattachPlayer s k e false pk).2.1 ∧
    countLoads (reattachPlayer (reattachPlayer s k e false pk).1 k e true pk).2.1 = 1 ∧
    (loadFile s k eid u false).1.manifestUrls = s.manifestUrls ∧
    (∀ eng, s.engines eid = some eng → ¬eng.assetUri = some u →
      (loadFile s k eid u true).1.manifestUrls k = some u) := by
  refine ⟨reattachPlayer_manifestUrls s k e false pk, ?_, ?_, ?_,
    loadFile_manifestUrls_failure s k eid u, ?_⟩
  · rw [reattachPlayer_players]
    exact hp
  · unfold reattachPlayer
    rw [reattachStart_pending s k e pk eid u hp hm]
    try dsimp only
    unfold reattachFinish
    rw [if_neg (by simp)]
    simp
  · refine countLoads_reattachPlayer_stored _ k e true pk eid u ?_ ?_
    · rw [reattachPlayer_players]
      exact hp
    · rw [reattachPlayer_manifestUrls]
      exact hm
  · intro eng heng hne
    unfold loadFile
    rw [heng]
    dsimp only
    rw [if_neg hne]
    simp [Store.get_set]

/-- C8 witness: evaluated on `sReg`. -/
theorem claim_C8_witness :
    sReg.players "a" = some 0 ∧ sReg.manifestUrls "a" = some "u1" ∧
    (reattachPlayer sReg "a" 1 false true).1.manifestUrls = sReg.manifestUrls ∧
    (reattachPlayer sReg "a" 1 false true).1.players "a" = some 0 ∧
    Event.loadFailureLogged ∈ (reattachPlayer sReg "a" 1 false true).2.1 ∧
    countLoads (reattachPlayer (reattachPlayer sReg "a" 1 false true).1 "a" 1 true true).2.1 = 1 := by
  have h := claim_C8_load_failure_atomicity sReg "a" 1 0 "u1" true rfl rfl
  exact ⟨rfl, rfl, h.1, h.2.1, h.2.2.1, h.2.2.2.1⟩

/-- C9 (amended): the promise returned by `reattachPlayer` always resolves —
load and resume failures are caught inside it and only logged, never
rethrown and never reflected in the resolution value — and the session's
registration, snapshot, and manifest-URL cache are untouched by the
failure, so the session remains usable. -/
theorem claim_C9_reattach_never_rejects (s : RegState) (k : String) (e : Nat)
    (l pk : Bool) :
    (reattachPlayer s k e l pk).2.2 = Except.ok () ∧
    (reattachPlayer s k e l pk).1.players = s.players ∧
    (reattachPlayer s k e l pk).1.playerStates = s.playerStates ∧
    (reattachPlayer s k e l pk).1.manifestUrls = s.manifestUrls :=
  ⟨reattachPlayer_result s k e l pk, reattachPlayer_players s k e l pk,
   reattachPlayer_playerStates s k e l pk, reattachPlayer_manifestUrls s k e l pk⟩

/-- C9 counterexample: a reattach whose load rejects resolves with exactly
the same value as a fully successful one — the failure is logged but not
surfaced as any status/result value to the caller. -/
theorem claim_C9_counterexample :
    Event.loadFailureLogged ∈ (reattachPlayer sReg "a" 1 false false).2.1 ∧
    (reattachPlayer sReg "a" 1 false false).2.2 = Except.ok () ∧
    (reattachPlayer sReg "a" 1 true true).2.2 = Except.ok () ∧
    (reattachPlayer sReg "a" 1 false false).2.2
      = (reattachPlayer sReg "a" 1 true true).2.2 :=
  ⟨by decide, rfl, rfl, rfl⟩

/-- C10: every event-loop operation preserves the three-map consistency
invariant; `updatePlayerState` on an unregistered key is a complete
no-op; and `setManifestUrl` lives outside the invariant — it touches
none of the three per-player maps and can record a URL for any key. -/
theorem claim_C10_registry_map_consistency :
    (∀ (s : RegState) (o : Op), MapsConsistent s → MapsConsistent (step s o).1) ∧
    (∀ (s : RegState) (k : String) (p : PlayerStatePatch), MapsConsistent s →
      s.players k = none → updatePlayerState s k p = s) ∧
    (∀ (s : RegState) (k u : String),
      (setManifestUrl s k u).players = s.players ∧
      (setManifestUrl s k u).playerStates = s.playerStates ∧
      (setManifestUrl s k u).audioElements = s.audioElements ∧
      (setManifestUrl s k u).manifestUrls k = some u) := by
  refine ⟨fun s o hc => cons_step hc o, ?_, ?_⟩
  · intro s k p hc hnone
    have h1 := (hc k).1
    rw [hnone] at h1
    have h2 : s.playerStates k = none := by
      cases h : s.playerStates k with
      | none => rfl
      | some v =>
          rw [h] at h1
          exact absurd h1.symm (by simp)
    unfold updatePlayerState
    rw [h2]
  · intro s k u
    refine ⟨rfl, rfl, rfl, ?_⟩
    show Store.set s.manifestUrls k u k = some u
    rw [Store.get_set, if_pos rfl]

/-- C10 witness: evaluated at the initial state. -/
theorem claim_C10_witness :
    MapsConsistent (step initState (Op.setManifest "a" "u")).1 ∧
    updatePlayerState initState "a"
      { isPlaying := none, currentTime := some 99, volume := none } = initState := by
  have hc : MapsConsistent initState := fun _ => ⟨rfl, rfl⟩
  exact ⟨claim_C10_registry_map_consistency.1 initState (Op.setManifest "a" "u") hc,
    claim_C10_registry_map_consistency.2.1 initState "a"
      { isPlaying := none, currentTime := some 99, volume := none } hc rfl⟩

/-- C3: at every reachable state, distinct keys own distinct engines and
every registered engine is alive (together with the single-valued map,
this is "at most one engine per live key"); and a run of consecutive
acquire calls for a not-yet-registered key — the event-loop rendering of
N near-simultaneous callers, whose check-then-register section contains
no suspension point — creates exactly one engine, hands every caller
that same engine, and leaves the key bound to it. -/
theorem claim_C3_single_flight :
    (∀ s : RegState, Reachable s →
      (∀ k1 k2 eid, s.players k1 = some eid → s.players k2 = some eid → k1 = k2) ∧
      (∀ k eid, s.players k = some eid →
        (s.engines eid).map EngineState.destroyed = some false)) ∧
    (∀ (s : RegState) (k : String) (c : Call) (cs : List Call),
      s.players k = none → (s.elems c.elemId).isSome →
      (∀ c' ∈ cs, (s.elems c'.elemId).isSome) →
      countCreates (acquireSeq s k (c :: cs)).2.1 = 1 ∧
      (acquireSeq s k (c :: cs)).2.2
        = List.replicate (cs.length + 1) (some s.nextEngineId) ∧
      (acquireSeq s k (c :: cs)).1.players k = some s.nextEngineId) := by
  constructor
  · intro s hs
    have hv := reachable_inv hs
    exact ⟨hv.inj, hv.live⟩
  · intro s k c cs hp hel1 hels
    obtain ⟨el, helx⟩ := Option.isSome_iff_exists.mp hel1
    obtain ⟨a1, a2, a3, a4⟩ := acquire_new s k c.uri c.elemId c.loadOk c.playOk
      el helx hp
    obtain ⟨g1, g2, g3⟩ := acquireSeq_registered k s.nextEngineId cs
      (acquire s k c.uri c.elemId c.loadOk c.playOk).1 a3
      (fun c' hc' => by rw [acquire_elems_isSome]; exact hels c' hc')
    refine ⟨?_, ?_, g3⟩
    · show countCreates ((acquire s k c.uri c.elemId c.loadOk c.playOk).2.1 ++
          (acquireSeq (acquire s k c.uri c.elemId c.loadOk c.playOk).1 k cs).2.1) = 1
      rw [countCreates_append, a2, g2]
    · show (acquire s k c.uri c.elemId c.loadOk c.playOk).2.2 ::
          (acquireSeq (acquire s k c.uri c.elemId c.loadOk c.playOk).1 k cs).2.2
        = List.replicate (cs.length + 1) (some s.nextEngineId)
      rw [a1, g1, List.replicate_succ]

/-- C3 witness: the invariant at the initial state and a two-call acquire
sequence on a fresh key. -/
theorem claim_C3_witness :
    (∀ k1 k2 eid, initState.players k1 = some eid →
      initState.players k2 = some eid → k1 = k2) ∧
    countCreates (acquireSeq sElems "a"
      [⟨"u", 0, true, true⟩, ⟨"u", 0, true, true⟩]).2.1 = 1 ∧
    (acquireSeq sElems "a"
      [⟨"u", 0, true, true⟩, ⟨"u", 0, true, true⟩]).2.2 = [some 0, some 0] ∧
    (acquireSeq sElems "a"
      [⟨"u", 0, true, true⟩, ⟨"u", 0, true, true⟩]).1.players "a" = some 0 := by
  have h1 := (claim_C3_single_flight.1 initState Reachable.init).1
  have h2 := claim_C3_single_flight.2 sElems "a" ⟨"u", 0, true, true⟩
    [⟨"u", 0, true, true⟩] rfl rfl
    (by
      intro c' hc'
      have : c' = (⟨"u", 0, true, true⟩ : Call) := by
        cases hc' with
        | head => rfl
        | tail _ hmem => exact absurd hmem (List.not_mem_nil _)
      rw [this]
      rfl)
  exact ⟨h1, h2.1, h2.2.1, h2.2.2⟩

/-- C5: after `updatePlayerState` records position `pos`, volume `vol` and
`playing = true`, a reattach of a new surface (with a manifest URL
stored) restores the surface to exactly that position and volume and
attempts to resume playback: on a successful `play()` the element is
unpaused, and on a rejected `play()` (autoplay blocked) the failure is
reported and the element merely stays paused. -/
theorem claim_C5_snapshot_roundtrip (s : RegState) (k : String) (e eid : Nat)
    (url : String) (el : AudioElement) (base : PlayerState) (pos vol : ℚ)
    (pk : Bool) (hp : s.players k = some eid) (hm : s.manifestUrls k = some url)
    (hel : s.elems e = some el) (hbase : s.playerStates k = some base) :
    ((reattachPlayer (updatePlayerState s k ⟨some true, some pos, some vol⟩)
        k e true pk).1.elems e
      = some ⟨if pk then false else el.paused, pos, vol⟩) ∧
    (Event.play e ∈ (reattachPlayer (updatePlayerState s k
        ⟨some true, some pos, some vol⟩) k e true pk).2.1) ∧
    (pk = false →
      Event.resumeFailureLogged e ∈ (reattachPlayer (updatePlayerState s k
        ⟨some true, some pos, some vol⟩) k e true pk).2.1) := by
  have hp' : (updatePlayerState s k ⟨some true, some pos, some vol⟩).players k
      = some eid := by
    rw [updatePlayerState_players]
    exact hp
  have hm' : (updatePlayerState s k ⟨some true, some pos, some vol⟩).manifestUrls k
      = some url := by
    rw [updatePlayerState_manifestUrls]
    exact hm
  have hel' : (updatePlayerState s k ⟨some true, some pos, some vol⟩).elems e
      = some el := by
    rw [updatePlayerState_elems]
    exact hel
  have hps' : (updatePlayerState s k ⟨some true, some pos, some vol⟩).playerStates k
      = some ⟨true, pos, vol⟩ := by
    unfold updatePlayerState
    rw [hbase]
    dsimp only
    rw [Store.get_set, if_pos rfl]
    rfl
  unfold reattachPlayer
  rw [reattachStart_pending _ k e pk eid url hp' hm']
  dsimp only
  rw [reattachFinish_elems_self _ _ ⟨true, pos, vol⟩ pk hps']
  rw [reattachFinish_events _ _ ⟨true, pos, vol⟩ pk hps']
  dsimp only
  rw [hel']
  cases pk with
  | true => exact ⟨rfl, by simp, fun hcon => absurd hcon (by simp)⟩
  | false => exact ⟨rfl, by simp, fun _ => by simp⟩

/-- C5 witness: evaluated on `sReg` with `play()` rejected (autoplay
blocked). -/
theorem claim_C5_witness :
    sReg.players "a" = some 0 ∧ sReg.manifestUrls "a" = some "u1" ∧
    sReg.elems 1 = some elemB ∧
    ((reattachPlayer (updatePlayerState sReg "a" ⟨some true, some 42, some 1⟩)
        "a" 1 true false).1.elems 1 = some ⟨elemB.paused, 42, 1⟩) ∧
    Event.resumeFailureLogged 1 ∈ (reattachPlayer (updatePlayerState sReg "a"
      ⟨some true, some 42, some 1⟩) "a" 1 true false).2.1 := by
  have h := claim_C5_snapshot_roundtrip sReg "a" 1 0 "u1" elemB snapW 42 1 false
    rfl rfl rfl rfl
  exact ⟨rfl, rfl, rfl, h.1, h.2.2 rfl⟩

/-- The overlapped reattach run used against C2: reattach R1 binds element 1
and suspends at its load; reattach R2 for the same key then runs its
synchronous prefix binding element 2; finally R1's load resolves and its
continuation runs. -/
def c2Run : RegState × List Event × Except JsError Unit :=
  match (reattachStart sReg "a" 1 true).2.2 with
  | ReattachStartResult.pendingLoad p =>
      reattachFinish (reattachStart (reattachStart sReg "a" 1 true).1 "a" 2 true).1
        p true true
  | _ => (sReg, [], Except.ok ())

/-- C2 counterexample: the superseded request R1's completion is not
discarded — it restores the snapshot onto and resumes playback on its
own stale element 1 (which started as `elemB`), an observable effect. -/
theorem claim_C2_counterexample :
    sReg.elems 1 = some elemB ∧
    c2Run.1.elems 1 = some ⟨false, 10, 1⟩ ∧
    c2Run.1.elems 1 ≠ sReg.elems 1 ∧
    Event.play 1 ∈ c2Run.2.1 ∧
    c2Run.1.audioElements "a" = some 2 := by
  refine ⟨rfl, rfl, ?_, by decide, rfl⟩
  intro hcon
  have h1 : c2Run.1.elems 1 = some ⟨false, 10, 1⟩ := rfl
  have h2 : sReg.elems 1 = some elemB := rfl
  rw [h1, h2] at hcon
  injection hcon with h3
  have : (10 : ℚ) = 0 := congrArg AudioElement.currentTime h3
  exact absurd this (by decide)

/-- C2 (amended): there is no supersession check.  When a second reattach
for the same key starts while the first one's load is in flight, the
registry's `audioElements` map does end up naming the newer surface
(it is overwritten synchronously at reattach start), but the superseded
request's continuation still runs in full when its load resolves: it
restores the captured snapshot onto its own stale element and resumes
playback there. -/
theorem claim_C2_no_supersession (s : RegState) (k : String) (e1 e2 eid : Nat)
    (url : String) (st : PlayerState) (el1 : AudioElement) (pk : Bool)
    (hp : s.players k = some eid) (hm : s.manifestUrls k = some url)
    (hsnap : s.playerStates k = some st) (hel : s.elems e1 = some el1) :
    ((reattachStart s k e1 pk).2.2
      = ReattachStartResult.pendingLoad ⟨k, e1, eid, some st, url⟩) ∧
    ((reattachStart (reattachStart s k e1 pk).1 k e2 pk).1.audioElements k
      = some e2) ∧
    ((reattachFinish (reattachStart (reattachStart s k e1 pk).1 k e2 pk).1
        ⟨k, e1, eid, some st, url⟩ true pk).1.elems e1
      = some ⟨if st.isPlaying then (if pk then false else el1.paused) else el1.paused,
              st.currentTime, st.volume⟩) := by
  have h1 := reattachStart_pending s k e1 pk eid url hp hm
  have hp1 : (reattachStart s k e1 pk).1.players k = some eid := by
    rw [reattachStart_players]
    exact hp
  have hm1 : (reattachStart s k e1 pk).1.manifestUrls k = some url := by
    rw [reattachStart_manifestUrls]
    exact hm
  have h2 := reattachStart_pending (reattachStart s k e1 pk).1 k e2 pk eid url hp1 hm1
  have he2 : (reattachStart (reattachStart s k e1 pk).1 k e2 pk).1.elems e1
      = some el1 := by
    rw [h2]
    dsimp only
    rw [h1]
    dsimp only
    exact hel
  refine ⟨?_, ?_, ?_⟩
  · rw [h1]
    dsimp only
    rw [hsnap]
  · rw [h2]
    dsimp only
    rw [Store.get_set, if_pos rfl]
  · rw [reattachFinish_elems_self _ ⟨k, e1, eid, some st, url⟩ st pk rfl]
    rw [he2]
    rfl

/-- C2 witness: the amended statement evaluated on `sReg`. -/
theorem claim_C2_witness :
    sReg.players "a" = some 0 ∧ sReg.playerStates "a" = some snapW ∧
    ((reattachStart sReg "a" 1 true).2.2
      = ReattachStartResult.pendingLoad ⟨"a", 1, 0, some snapW, "u1"⟩) ∧
    ((reattachStart (reattachStart sReg "a" 1 true).1 "a" 2 true).1.audioElements "a"
      = some 2) ∧
    ((reattachFinish (reattachStart (reattachStart sReg "a" 1 true).1 "a" 2 true).1
        ⟨"a", 1, 0, some snapW, "u1"⟩ true true).1.elems 1
      = some ⟨false, snapW.currentTime, snapW.volume⟩) := by
  have h := claim_C2_no_supersession sReg "a" 1 2 0 "u1" snapW elemB true
    rfl rfl rfl rfl
  exact ⟨rfl, rfl, h.1, h.2.1, h.2.2⟩

/-- The in-flight-update run used against C4: a reattach suspends at its
load; while it is pending, `updatePlayerState` moves the stored position
to 99; then the load resolves and the restore runs. -/
def c4Run : RegState × List Event × Except JsError Unit :=
  match (reattachStart sReg "a" 1 true).2.2 with
  | ReattachStartResult.pendingLoad p =>
      reattachFinish (updatePlayerState (reattachStart sReg "a" 1 true).1 "a"
        { isPlaying := none, currentTime := some 99, volume := none }) p true true
  | _ => (sReg, [], Except.ok ())

/-- C4 counterexample: at the moment the restore runs, the registry's
snapshot says position 99, but the element is restored to position 10 —
the value captured at the start of `reattachPlayer`, before the awaited
load. -/
theorem claim_C4_counterexample :
    c4Run.1.playerStates "a" = some ⟨true, 99, 1⟩ ∧
    c4Run.1.elems 1 = some ⟨false, 10, 1⟩ ∧
    c4Run.1.elems 1 ≠ some ⟨false, 99, 1⟩ := by
  refine ⟨rfl, rfl, ?_⟩
  intro hcon
  have h1 : c4Run.1.elems 1 = some ⟨false, 10, 1⟩ := rfl
  rw [h1] at hcon
  injection hcon with h3
  have : (10 : ℚ) = 99 := congrArg AudioElement.currentTime h3
  exact absurd this (by decide)

/-- C4 (amended): the restore step applies the snapshot captured into the
suspended request (`Pending.snap`, read at the start of `reattachPlayer`
before the awaited load), not the snapshot current when the restore
runs: an `updatePlayerState` performed while the load was in flight
changes the registry's stored snapshot but has no effect on the restored
values. -/
theorem claim_C4_restore_uses_captured_snapshot (s : RegState) (p : Pending)
    (k' : String) (q : PlayerStatePatch) (st : PlayerState) (pk : Bool)
    (hsnap : p.snap = some st) :
    ((reattachFinish (updatePlayerState s k' q) p true pk).1.elems p.elem
      = (s.elems p.elem).map (fun el =>
          ⟨if st.isPlaying then (if pk then false else el.paused) else el.paused,
           st.currentTime, st.volume⟩)) ∧
    ((reattachFinish (updatePlayerState s k' q) p true pk).1.elems p.elem
      = (reattachFinish s p true pk).1.elems p.elem) := by
  have h1 := reattachFinish_elems_self (updatePlayerState s k' q) p st pk hsnap
  have h2 := reattachFinish_elems_self s p st pk hsnap
  rw [updatePlayerState_elems] at h1
  exact ⟨h1, by rw [h1, h2]⟩

/-- C4 witness: the amended statement evaluated on `sReg`. -/
theorem claim_C4_witness :
    ((reattachFinish (updatePlayerState sReg "a"
        { isPlaying := none, currentTime := some 99, volume := none })
        ⟨"a", 1, 0, some snapW, "u1"⟩ true true).1.elems 1
      = some ⟨false, snapW.currentTime, snapW.volume⟩) ∧
    ((reattachFinish (updatePlayerState sReg "a"
        { isPlaying := none, currentTime := some 99, volume := none })
        ⟨"a", 1, 0, some snapW, "u1"⟩ true true).1.elems 1
      = (reattachFinish sReg ⟨"a", 1, 0, some snapW, "u1"⟩ true true).1.elems 1) := by
  have h := claim_C4_restore_uses_captured_snapshot sReg
    ⟨"a", 1, 0, some snapW, "u1"⟩ "a"
    { isPlaying := none, currentTime := some 99, volume := none } snapW true rfl
  exact ⟨by rw [h.1]; rfl, h.2⟩

theorem acquire_manifestUrls_failure (s : RegState) (k u : String) (e : Nat)
    (pk : Bool) (el : AudioElement) (hel : s.elems e = some el)
    (hp : s.players k = none) :
    (acquire s k u e false pk).1.manifestUrls = s.manifestUrls := by
  unfold acquire
  rw [hel]
  dsimp only
  rw [hp]
  dsimp only
  rw [loadFile_manifestUrls_failure, registerPlayer_manifestUrls]

theorem inv_sReg : Inv sReg := by
  refine ⟨?_, ?_, ?_, ?_⟩
  · intro i hi
    by_cases h0 : i = 0
    · rw [h0]
      decide
    · exfalso
      have hnone : sReg.engines i = none := by
        show Store.set Store.empty 0 engW i = none
        rw [Store.get_set, if_neg h0]
        rfl
      rw [hnone] at hi
      exact absurd hi (by simp)
  · intro k1 k2 eid h1 h2
    have ha1 : k1 = "a" := by
      by_contra hne
      have hnone : sReg.players k1 = none := by
        show Store.set Store.empty "a" 0 k1 = none
        rw [Store.get_set, if_neg hne]
        rfl
      rw [hnone] at h1
      exact absurd h1 (by simp)
    have ha2 : k2 = "a" := by
      by_contra hne
      have hnone : sReg.players k2 = none := by
        show Store.set Store.empty "a" 0 k2 = none
        rw [Store.get_set, if_neg hne]
        rfl
      rw [hnone] at h2
      exact absurd h2 (by simp)
    rw [ha1, ha2]
  · intro k eid h
    by_cases ha : k = "a"
    · rw [ha] at h
      have h0 : sReg.players "a" = some 0 := rfl
      rw [h0] at h
      injection h with h'
      rw [← h']
      rfl
    · exfalso
      have hnone : sReg.players k = none := by
        show Store.set Store.empty "a" 0 k = none
        rw [Store.get_set, if_neg ha]
        rfl
      rw [hnone] at h
      exact absurd h (by simp)
  · intro k
    by_cases ha : k = "a"
    · rw [ha]
      exact ⟨rfl, rfl⟩
    · constructor
      · show (Store.set Store.empty "a" 0 k).isSome
          = (Store.set Store.empty "a" snapW k).isSome
        rw [Store.get_set, if_neg ha, Store.get_set, if_neg ha]
        rfl
      · show (Store.set Store.empty "a" 0 k).isSome
          = (Store.set Store.empty "a" 0 k).isSome
        rfl

/-- The release-then-reacquire run used against C7: session `"a"` is
released, then re-acquired for a new resource `"uNew"` on element 1,
with the fresh load still failing (or equivalently still in flight). -/
def c7Run : RegState × List Event × Option Nat :=
  acquire (unregisterPlayer sReg "a").1 "a" "uNew" 1 false true

/-- C7 counterexample: after `release` + `acquire`, the engine and snapshot
are indeed fresh, but the manifest-URL cache still holds the prior
session's `"u1"` — per-key state from before the release remains
observable (and is exactly what a subsequent `reattachPlayer` would
reload). -/
theorem claim_C7_counterexample :
    c7Run.2.2 = some 1 ∧
    c7Run.1.players "a" = some 1 ∧
    getManifestUrl c7Run.1 "a" = some "u1" ∧
    "u1" ≠ "uNew" ∧
    c7Run.1.playerStates "a" = some ⟨false, 0, 1⟩ :=
  ⟨rfl, rfl, rfl, by decide, rfl⟩

/-- C7 (amended): `release(K)` followed by `acquire(K, uri)` yields a
brand-new engine (a fresh identity, distinct from the released one) and
a snapshot freshly initialized from the newly bound element — no
position, volume or playing state leaks — but the manifest-URL cache
entry is not cleared by release: until a successful load overwrites it,
the prior session's URL remains observable through the new session. -/
theorem claim_C7_release_then_acquire (s : RegState) (k u : String) (e eid : Nat)
    (pk : Bool) (el : AudioElement) (hv : Inv s)
    (hp : s.players k = some eid) (hel : s.elems e = some el) :
    (acquire (unregisterPlayer s k).1 k u e false pk).2.2 = some s.nextEngineId ∧
    s.nextEngineId ≠ eid ∧
    (acquire (unregisterPlayer s k).1 k u e false pk).1.playerStates k
      = some ⟨!el.paused, el.currentTime, el.volume⟩ ∧
    (acquire (unregisterPlayer s k).1 k u e false pk).1.manifestUrls
      = s.manifestUrls := by
  have hp1 : (unregisterPlayer s k).1.players k = none :=
    unregisterPlayer_players_self s k
  have hel1 : (unregisterPlayer s k).1.elems e = some el := by
    rw [unregisterPlayer_elems]
    exact hel
  obtain ⟨a1, _, _, a4⟩ := acquire_new (unregisterPlayer s k).1 k u e false pk
    el hel1 hp1
  have hlt : eid < s.nextEngineId :=
    hv.fresh eid (isSome_of_map_destroyed (hv.live k eid hp))
  refine ⟨?_, (Nat.ne_of_lt hlt).symm, a4, ?_⟩
  · rw [a1, unregisterPlayer_nextEngineId]
  · rw [acquire_manifestUrls_failure _ k u e pk el hel1 hp1,
      unregisterPlayer_manifestUrls]

/-- C7 witness: the amended statement evaluated on `sReg`. -/
theorem claim_C7_witness :
    sReg.players "a" = some 0 ∧ sReg.elems 1 = some elemB ∧
    (acquire (unregisterPlayer sReg "a").1 "a" "uNew" 1 false true).2.2 = some 1 ∧
    (1 : Nat) ≠ 0 ∧
    (acquire (unregisterPlayer sReg "a").1 "a" "uNew" 1 false true).1.playerStates "a"
      = some ⟨!elemB.paused, elemB.currentTime, elemB.volume⟩ ∧
    (acquire (unregisterPlayer sReg "a").1 "a" "uNew" 1 false true).1.manifestUrls
      = sReg.manifestUrls := by
  have h := claim_C7_release_then_acquire sReg "a" "uNew" 1 0 true elemB
    inv_sReg rfl rfl
  exact ⟨rfl, rfl, h.1, h.2.1, h.2.2.1, h.2.2.2⟩

end Windriver
